import Mathlib

/-!
Shallow embedding of the ledger-mutation and fraud-decision core of the
digital-wallet application (Next.js/Prisma), together with proofs of the
specified properties.

Monetary amounts and fraud scores are embedded as exact rationals (`ℚ`);
`Math.round` from JavaScript is embedded as half-up rounding.  The Prisma
wallet store is embedded as a list of wallet records, and each balance
mutation (`increment` / `decrement` on a wallet row selected by id) as a
pointwise update of that list.  Database aggregate queries used by the
fraud engine (counts, sums, account age) are supplied by an explicit
environment record, and external collaborators (currency conversion,
Stripe, the remote inter-wallet system, HMAC) are supplied as oracles.
-/

namespace WalletSpec

/-- JavaScript `Math.round`: half-up rounding, `⌊x + 1/2⌋`. -/
def jsRound (x : ℚ) : ℤ := Int.floor (x + 1/2)

/-- Constant `PLATFORM_FEE_RATE = 0.01` from `src/lib/platform-fee.ts`. -/
def PLATFORM_FEE_RATE : ℚ := 1/100

/-- Function `calculatePlatformFee` from `src/lib/platform-fee.ts`:
`Math.round(amountNum * PLATFORM_FEE_RATE * 100) / 100`. -/
def calculatePlatformFee (amount : ℚ) : ℚ :=
  (jsRound (amount * PLATFORM_FEE_RATE * 100) : ℚ) / 100

/-- Result record of `applyPlatformFee`. -/
structure FeeResult where
  netAmount : ℚ
  fee : ℚ
deriving Repr, DecidableEq

/-- Function `applyPlatformFee` from `src/lib/platform-fee.ts`. -/
def applyPlatformFee (amount : ℚ) : FeeResult :=
  let fee := calculatePlatformFee amount
  let netAmount := amount - fee
  { netAmount := netAmount, fee := fee }

/-- Half-up rounding of a rational to 2 decimal places, as the spec words it
("round(amount * rate, 2 decimals)", rounding half-up).  Used only to compare
the source function against the specification's wording. -/
def specRoundHalfUp2 (x : ℚ) : ℚ := ((Int.floor (x * 100 + 1/2)) : ℚ) / 100

/-- Fraud decision values (`'ACCEPTED' | 'REVIEW' | 'BLOCKED'`). -/
inductive Decision where
  | ACCEPTED
  | REVIEW
  | BLOCKED
deriving Repr, DecidableEq

/-- Function `determineDecision` from the fraud test module: score≥80 → BLOCKED,
score≥50 → REVIEW, else ACCEPTED. -/
def determineDecision (score : ℚ) : Decision :=
  if score ≥ 80 then .BLOCKED
  else if score ≥ 50 then .REVIEW
  else .ACCEPTED

/-- Result record of `calculateHighAmountScore` (fraud test module). -/
structure HighAmountScore where
  score : ℚ
  reasons : List String
  rules : List String
deriving Repr, DecidableEq

/-- Function `calculateHighAmountScore` from the fraud test module: the amount-based
portion of the built-in rule set.  `> 10000` adds 50 (`VERY_HIGH_AMOUNT`)
and `> 5000` adds 30 (`HIGH_AMOUNT`); both conditions are checked, so the
two contributions stack. -/
def calculateHighAmountScore (amount : ℚ) : HighAmountScore :=
  let acc1 : HighAmountScore :=
    if amount > 10000 then
      { score := 50
        reasons := ["Montant très élevé: " ++ toString amount ++ "€ (> 10000€)"]
        rules := ["VERY_HIGH_AMOUNT"] }
    else { score := 0, reasons := [], rules := [] }
  if amount > 5000 then
    { score := acc1.score + 30
      reasons := acc1.reasons ++ ["Montant élevé: " ++ toString amount ++ "€"]
      rules := acc1.rules ++ ["HIGH_AMOUNT"] }
  else acc1

/-- Transaction context handed to the fraud engine (`src/lib/fraud.ts`). -/
structure TransactionContext where
  userId : String
  amount : ℚ
  type : String
  sourceWalletId : Option String := none
  destinationWalletId : Option String := none
  isInterWallet : Bool := false
  externalSystemUrl : Option String := none
deriving Repr, DecidableEq

/-- Answers of the store's aggregate queries consulted by the fraud engine:
`txCountInWindow m` is the count of the user's transactions created within
the trailing `m` minutes, `dailySumPrior` the sum of today's
SUCCESS/PENDING/PROCESSING transaction amounts, `accountAgeDays` the user's
account age in days (`none` when the user row is absent),
`interWalletSuccessCount` the count of the user's SUCCESS inter-wallet
transactions, and `successCountToSystem u` the count of those to system
url `u`. -/
structure FraudEnv where
  txCountInWindow : ℚ → Nat
  dailySumPrior : ℚ
  accountAgeDays : Option ℚ
  interWalletSuccessCount : Nat
  successCountToSystem : String → Nat

/-- Result record of `applyBuiltInRules`. -/
structure BuiltInResult where
  score : ℚ
  reasons : List String
  appliedRules : List String
deriving Repr, DecidableEq

/-- Function `applyBuiltInRules` from `src/lib/fraud.ts`: the six fixed rules, each
appending its score/reason/name when its condition holds, in source order.
An empty `externalSystemUrl` string is JS-falsy and skips rule 6. -/
def applyBuiltInRules (ctx : TransactionContext) (env : FraudEnv) : BuiltInResult :=
  let recentTxCount := env.txCountInWindow 60
  let dailyTotal := env.dailySumPrior + ctx.amount
  let newAccountHit :=
    match env.accountAgeDays with
    | some age => decide (age < 7) && decide (ctx.amount > 1000)
    | none => false
  let newSystemHit :=
    match ctx.externalSystemUrl with
    | some url => ctx.isInterWallet && url ≠ "" && env.successCountToSystem url == 0
    | none => false
  { score :=
      (if ctx.amount > 5000 then (30 : ℚ) else 0) +
      (if ctx.amount > 10000 then 50 else 0) +
      (if recentTxCount > 5 then 20 else 0) +
      (if dailyTotal > 10000 then 40 else 0) +
      (if newAccountHit then 25 else 0) +
      (if newSystemHit then 15 else 0)
    reasons :=
      (if ctx.amount > 5000 then ["Montant élevé: " ++ toString ctx.amount ++ "€"] else []) ++
      (if ctx.amount > 10000 then
        ["Montant très élevé: " ++ toString ctx.amount ++ "€ (> 10000€)"] else []) ++
      (if recentTxCount > 5 then
        [toString recentTxCount ++ " transactions dans la dernière heure"] else []) ++
      (if dailyTotal > 10000 then ["Total journalier élevé: " ++ toString dailyTotal ++ "€"] else []) ++
      (if newAccountHit then ["Compte récent avec montant > 1000€"] else []) ++
      (if newSystemHit then ["Première transaction vers ce système externe"] else [])
    appliedRules :=
      (if ctx.amount > 5000 then ["HIGH_AMOUNT"] else []) ++
      (if ctx.amount > 10000 then ["VERY_HIGH_AMOUNT"] else []) ++
      (if recentTxCount > 5 then ["HIGH_VELOCITY"] else []) ++
      (if dailyTotal > 10000 then ["DAILY_LIMIT_EXCEEDED"] else []) ++
      (if newAccountHit then ["NEW_ACCOUNT_HIGH_AMOUNT"] else []) ++
      (if newSystemHit then ["NEW_EXTERNAL_SYSTEM"] else []) }

/-- The JSON `condition` blob of a configurable fraud rule: the optional
numeric parameters read by `applyRule`. -/
structure RuleCondition where
  maxAmount : Option ℚ := none
  maxTransactions : Option ℚ := none
  timeWindowMinutes : Option ℚ := none
  maxDaily : Option ℚ := none
  minAgeDays : Option ℚ := none
deriving Repr, DecidableEq

/-- JavaScript `x || d` on an optional numeric field: the default applies
when the field is absent or `0` (both JS-falsy). -/
def jsOrNum (v : Option ℚ) (d : ℚ) : ℚ :=
  match v with
  | none => d
  | some x => if x = 0 then d else x

/-- A stored `FraudRule` row as read by `checkFraud` (active rules, already
ordered by priority descending). -/
structure FraudRule where
  name : String
  ruleType : String
  condition : RuleCondition
  score : ℚ
  action : String
  priority : ℤ
deriving Repr, DecidableEq

/-- Result of `applyRule`: whether the rule triggered, and the reason. -/
structure RuleResult where
  triggered : Bool
  reason : String
deriving Repr, DecidableEq

/-- Function `applyRule` from `src/lib/fraud.ts`: the type-specific predicate of one
configurable rule against the context and the store's aggregates. -/
def applyRule (rule : FraudRule) (ctx : TransactionContext) (env : FraudEnv) : RuleResult :=
  if rule.ruleType == "AMOUNT_LIMIT" then
    let maxAmount := jsOrNum rule.condition.maxAmount 10000
    if ctx.amount > maxAmount then
      { triggered := true
        reason := "Montant (" ++ toString ctx.amount ++ "€) dépasse la limite de " ++
          toString maxAmount ++ "€" }
    else { triggered := false, reason := "" }
  else if rule.ruleType == "VELOCITY" then
    let maxTransactions := jsOrNum rule.condition.maxTransactions 10
    let timeWindowMinutes := jsOrNum rule.condition.timeWindowMinutes 60
    let recentCount := env.txCountInWindow timeWindowMinutes
    if (recentCount : ℚ) ≥ maxTransactions then
      { triggered := true
        reason := toString recentCount ++ " transactions en " ++ toString timeWindowMinutes ++
          " minutes (limite: " ++ toString maxTransactions ++ ")" }
    else { triggered := false, reason := "" }
  else if rule.ruleType == "DAILY_LIMIT" then
    let maxDaily := jsOrNum rule.condition.maxDaily 5000
    let total := env.dailySumPrior + ctx.amount
    if total > maxDaily then
      { triggered := true
        reason := "Total journalier (" ++ toString total ++ "€) dépasse la limite de " ++
          toString maxDaily ++ "€" }
    else { triggered := false, reason := "" }
  else if rule.ruleType == "NEW_ACCOUNT" then
    let minAgeDays := jsOrNum rule.condition.minAgeDays 7
    match env.accountAgeDays with
    | some age =>
      if age < minAgeDays ∧ ctx.amount > 500 then
        { triggered := true, reason := "Compte récent avec montant élevé" }
      else { triggered := false, reason := "" }
    | none => { triggered := false, reason := "" }
  else if rule.ruleType == "INTER_WALLET_SUSPICIOUS" then
    if ctx.isInterWallet ∧ env.interWalletSuccessCount = 0 ∧ ctx.amount > 200 then
      { triggered := true
        reason := "Première transaction inter-wallet avec montant élevé (" ++
          toString ctx.amount ++ "€)" }
    else { triggered := false, reason := "" }
  else { triggered := false, reason := "" }

/-- Result record of `checkFraud`. -/
structure FraudCheckResult where
  score : ℚ
  decision : Decision
  reasons : List String
  appliedRules : List String
deriving Repr, DecidableEq

/-- The rule loop of `checkFraud`: fold over the (priority-descending) rule
list accumulating score/reasons/names; a triggered rule whose action is
`BLOCK` returns the BLOCKED result immediately (`Sum.inl`), otherwise the
final accumulators are handed back (`Sum.inr`). -/
def checkFraudGo (ctx : TransactionContext) (env : FraudEnv) :
    List FraudRule → ℚ → List String → List String →
    Sum FraudCheckResult (ℚ × List String × List String)
  | [], score, reasons, applied => Sum.inr (score, reasons, applied)
  | rule :: rest, score, reasons, applied =>
    let r := applyRule rule ctx env
    if r.triggered then
      let score' := score + rule.score
      let reasons' := reasons ++ [r.reason]
      let applied' := applied ++ [rule.name]
      if rule.action == "BLOCK" then
        Sum.inl
          { score := min score' 100, decision := .BLOCKED
            reasons := reasons', appliedRules := applied' }
      else checkFraudGo ctx env rest score' reasons' applied'
    else checkFraudGo ctx env rest score reasons applied

/-- Function `checkFraud` from `src/lib/fraud.ts`: run the configurable rules; fall
back to the built-in rule set when no stored rules exist; then derive the
decision from the total score (≥80 BLOCKED, ≥50 REVIEW, else ACCEPTED) and
cap the reported score at 100. -/
def checkFraud (rules : List FraudRule) (ctx : TransactionContext) (env : FraudEnv) :
    FraudCheckResult :=
  match checkFraudGo ctx env rules 0 [] [] with
  | Sum.inl res => res
  | Sum.inr (score₀, reasons₀, applied₀) =>
    let useBuiltIn := rules.length == 0
    let score := if useBuiltIn then (applyBuiltInRules ctx env).score else score₀
    let reasons := if useBuiltIn then reasons₀ ++ (applyBuiltInRules ctx env).reasons else reasons₀
    let applied :=
      if useBuiltIn then applied₀ ++ (applyBuiltInRules ctx env).appliedRules else applied₀
    let decision : Decision :=
      if score ≥ 80 then .BLOCKED else if score ≥ 50 then .REVIEW else .ACCEPTED
    { score := min score 100, decision := decision, reasons := reasons, appliedRules := applied }

/-- A wallet row: id, owning user, currency, balance, active flag. -/
structure Wallet where
  id : String
  userId : String
  currency : String
  balance : ℚ
  isActive : Bool
deriving Repr, DecidableEq

/-- The wallet store: the list of wallet rows. -/
abbrev Ledger := List Wallet

/-- Balance of the wallet row with the given id (`0` when absent). -/
def getBalance (l : Ledger) (wid : String) : ℚ :=
  match l.find? (fun w => w.id == wid) with
  | some w => w.balance
  | none => 0

/-- Prisma's `update where id, balance: { increment: amt }` (a decrement is
a credit of a negative amount). -/
def credit (l : Ledger) (wid : String) (amt : ℚ) : Ledger :=
  l.map (fun w => if w.id == wid then { w with balance := w.balance + amt } else w)

/-- Whether a wallet row with the given id exists. -/
def walletPresent (l : Ledger) (wid : String) : Bool :=
  (l.find? (fun w => w.id == wid)).isSome

/-- Transaction status values. -/
inductive TxStatus where
  | PENDING
  | PROCESSING
  | REVIEW
  | SUCCESS
  | FAILED
  | BLOCKED
deriving Repr, DecidableEq

/-- The parsed body of `POST /api/transactions` (after zod validation). -/
structure TransferData where
  sourceWalletId : String
  destinationWalletId : Option String := none
  destinationEmail : Option String := none
  amount : ℚ
  destinationCurrency : Option String := none
  isInterWallet : Bool := false
  externalSystemUrl : Option String := none
  externalWalletId : Option String := none
deriving Repr, DecidableEq

/-- JavaScript `s || d` on an optional string: the default applies when the
field is absent or the empty string (both JS-falsy). -/
def jsOrStr (v : Option String) (d : String) : String :=
  match v with
  | none => d
  | some s => if s = "" then d else s

/-- JS truthiness of an optional string field. -/
def jsTruthy (v : Option String) : Bool :=
  match v with
  | none => false
  | some s => s != ""

/-- The metadata recorded on a local-transfer transaction. -/
structure TxMetadata where
  sourceCurrency : String
  destinationCurrency : String
  amountDebited : ℚ
  amountCredited : ℚ
  platformFeeInSourceCurrency : ℚ
  platformFeeInEUR : ℚ
  exchangeRate : ℚ
  totalDebit : ℚ
  isSameUser : Bool
deriving Repr, DecidableEq

/-- The transaction record created by the orchestrator (the fields the
properties observe; `hasExecutedAt` records whether `executedAt` was set). -/
structure TxRecord where
  status : TxStatus
  amount : ℚ
  platformFee : ℚ
  currency : String
  fraudScore : ℚ
  hasExecutedAt : Bool
  metadata : Option TxMetadata := none
deriving Repr, DecidableEq

/-- Outcome of `handleLocalTransfer`: an error response leaves the store
untouched; a success carries the transaction record, the mutated store and
the reported new source balance. -/
inductive TransferResult where
  | failure (error : String) (httpStatus : Nat) (ledger : Ledger)
  | ok (tx : TxRecord) (ledger : Ledger) (newBalance : ℚ)
deriving Repr, DecidableEq

/-- The `convertCurrency` collaborator: `convert amount from to`; `none`
embeds a thrown conversion error. -/
abbrev Convert := ℚ → String → String → Option ℚ

/-- The tail of `handleLocalTransfer` (route `POST /api/transactions`) after
the destination wallet is resolved, the self-transfer rejected and the
amount converted into the source currency: same-user fee waiver, fee
computation, platform-fee conversion to EUR, balance check, the atomic
debit/credit/fee mutation, and the transaction record. -/
def localTransferSettle (sourceWallet destinationWallet : Wallet)
    (amountInDestinationCurrency amountToDebit exchangeRate : ℚ)
    (fraud : FraudCheckResult) (ledger : Ledger) (convert : Convert)
    (platformWalletId : String) : TransferResult :=
  let isSameUser := sourceWallet.userId == destinationWallet.userId
  let platformFeeInSourceCurrency :=
    if isSameUser then 0 else calculatePlatformFee amountToDebit
  let totalDebit := amountToDebit + platformFeeInSourceCurrency
  let feeStep : Option (Option String × ℚ) :=
    if ¬isSameUser ∧ platformFeeInSourceCurrency > 0 then
      let platformWalletData := ledger.find? (fun w => w.id == platformWalletId)
      if sourceWallet.currency != "EUR" &&
          (match platformWalletData with
           | some w => w.currency == "EUR"
           | none => false) then
        match convert platformFeeInSourceCurrency sourceWallet.currency "EUR" with
        | some feeEUR => some (some platformWalletId, feeEUR)
        | none => none
      else some (some platformWalletId, platformFeeInSourceCurrency)
    else some (none, 0)
  match feeStep with
  | none => .failure "Erreur de conversion des frais de plateforme" 400 ledger
  | some (platformWallet?, platformFeeInEUR) =>
    if sourceWallet.balance < totalDebit then
      .failure
        (if isSameUser then "Solde insuffisant"
         else "Solde insuffisant (montant + frais de plateforme)") 400 ledger
    else
      let status : TxStatus := if fraud.decision = .REVIEW then .REVIEW else .SUCCESS
      let ledger1 := credit ledger sourceWallet.id (-totalDebit)
      let ledger2 :=
        if status = .SUCCESS then
          let lc := credit ledger1 destinationWallet.id amountInDestinationCurrency
          if ¬isSameUser ∧ platformWallet?.isSome ∧ platformFeeInEUR > 0 then
            credit lc platformWalletId platformFeeInEUR
          else lc
        else ledger1
      let tx : TxRecord :=
        { status := status
          amount := amountInDestinationCurrency
          platformFee := platformFeeInEUR
          currency := destinationWallet.currency
          fraudScore := fraud.score
          hasExecutedAt := status == .SUCCESS
          metadata := some
            { sourceCurrency := sourceWallet.currency
              destinationCurrency := destinationWallet.currency
              amountDebited := amountToDebit
              amountCredited := amountInDestinationCurrency
              platformFeeInSourceCurrency := platformFeeInSourceCurrency
              platformFeeInEUR := platformFeeInEUR
              exchangeRate := exchangeRate
              totalDebit := totalDebit
              isSameUser := isSameUser } }
      .ok tx ledger2 (getBalance ledger2 sourceWallet.id)

/-- Function `handleLocalTransfer` from route `POST /api/transactions`: resolve the
destination wallet (by id, else by recipient email through the user store),
reject self-transfer, convert the amount (entered in the destination
currency) into the source currency when the wallets' currencies differ,
then settle. -/
def handleLocalTransfer (sourceWallet : Wallet) (data : TransferData)
    (fraud : FraudCheckResult) (ledger : Ledger) (convert : Convert)
    (emailLookup : String → Option Wallet) (platformWalletId : String) : TransferResult :=
  let destinationWallet? : Option Wallet :=
    match data.destinationWalletId with
    | some wid => ledger.find? (fun w => w.id == wid && w.isActive)
    | none =>
      match data.destinationEmail with
      | some email => emailLookup email
      | none => none
  match destinationWallet? with
  | none => .failure "Wallet destinataire non trouvé" 404 ledger
  | some destinationWallet =>
    if destinationWallet.id == sourceWallet.id then
      .failure "Impossible de transférer vers le même wallet" 400 ledger
    else
      let amountInDestinationCurrency := data.amount
      if destinationWallet.currency ≠ sourceWallet.currency then
        let expectedCurrency := jsOrStr data.destinationCurrency destinationWallet.currency
        if expectedCurrency ≠ destinationWallet.currency then
          .failure "La devise du montant ne correspond pas au wallet de destination" 400 ledger
        else
          match convert amountInDestinationCurrency destinationWallet.currency
              sourceWallet.currency with
          | none => .failure "Erreur de conversion de devise" 400 ledger
          | some amountToDebit =>
            localTransferSettle sourceWallet destinationWallet amountInDestinationCurrency
              amountToDebit (amountToDebit / amountInDestinationCurrency) fraud ledger convert
              platformWalletId
      else
        localTransferSettle sourceWallet destinationWallet amountInDestinationCurrency
          data.amount 1 fraud ledger convert platformWalletId

/-- Result of the `sendInterWalletTransfer` remote protocol call. -/
structure RemoteTransferResult where
  success : Bool
  transactionRef : Option String := none
  error : Option String := none
deriving Repr, DecidableEq

/-- Outcome of `handleInterWalletTransfer`. -/
inductive InterTransferResult where
  | ok (txStatus : TxStatus) (interWalletRef : Option String) (ledger : Ledger)
  | failure (error : String) (txStatus : TxStatus) (ledger : Ledger)
deriving Repr, DecidableEq

/-- Function `handleInterWalletTransfer` from route `POST /api/transactions`: debit
the source wallet by amount+fee and credit the platform wallet with the fee
(atomically, with no prior balance check), create a PENDING transaction,
invoke the remote protocol; on success mark PROCESSING with the returned
reference, on failure reverse the debit and the platform fee and mark
FAILED. -/
def handleInterWalletTransfer (sourceWallet : Wallet) (data : TransferData)
    (ledger : Ledger) (platformWalletId : String)
    (remote : RemoteTransferResult) : InterTransferResult :=
  let platformFeeNum := calculatePlatformFee data.amount
  let totalDebit := data.amount + platformFeeNum
  let ledger1 := credit ledger sourceWallet.id (-totalDebit)
  let ledger2 := credit ledger1 platformWalletId platformFeeNum
  if remote.success then
    InterTransferResult.ok .PROCESSING remote.transactionRef ledger2
  else
    let ledger3 := credit ledger2 sourceWallet.id totalDebit
    let ledger4 := credit ledger3 platformWalletId (-platformFeeNum)
    InterTransferResult.failure
      (jsOrStr remote.error "Échec de la transaction inter-wallet") .FAILED ledger4

/-- JSON response of `POST /api/transactions` (the observed fields). -/
structure RouteResponse where
  success : Bool
  error : Option String := none
  httpStatus : Nat
  txStatus : Option TxStatus := none
deriving Repr, DecidableEq

/-- The fraud-check context built by `POST /api/transactions` from the
session user and the request body. -/
def routeFraudCtx (user : String) (data : TransferData) : TransactionContext :=
  { userId := user
    amount := data.amount
    type := if data.isInterWallet then "INTER_WALLET" else "TRANSFER"
    sourceWalletId := some data.sourceWalletId
    destinationWalletId := data.destinationWalletId
    isInterWallet := data.isInterWallet
    externalSystemUrl := data.externalSystemUrl }

/-- Route `POST /api/transactions`: source-wallet ownership lookup, fraud check,
BLOCKED short-circuit (a BLOCKED transaction record is persisted but no
balance is mutated), then dispatch to the inter-wallet or local handler. -/
def postTransactionRoute (rules : List FraudRule) (env : FraudEnv) (user : String)
    (data : TransferData) (ledger : Ledger) (convert : Convert)
    (emailLookup : String → Option Wallet) (platformWalletId : String)
    (remote : RemoteTransferResult) : RouteResponse × Ledger :=
  match ledger.find? (fun w => w.id == data.sourceWalletId && w.userId == user && w.isActive) with
  | none => ({ success := false, error := some "Wallet source non trouvé", httpStatus := 404 }, ledger)
  | some sourceWallet =>
    let fraudResult := checkFraud rules (routeFraudCtx user data) env
    if fraudResult.decision = .BLOCKED then
      ({ success := false, error := some "Transaction bloquée par la détection de fraude"
         httpStatus := 403, txStatus := some .BLOCKED }, ledger)
    else if data.isInterWallet && jsTruthy data.externalSystemUrl &&
        jsTruthy data.externalWalletId then
      match handleInterWalletTransfer sourceWallet data ledger platformWalletId remote with
      | .ok st _ref l => ({ success := true, httpStatus := 200, txStatus := some st }, l)
      | .failure e st l =>
        ({ success := false, error := some e, httpStatus := 400, txStatus := some st }, l)
    else
      match handleLocalTransfer sourceWallet data fraudResult ledger convert emailLookup
          platformWalletId with
      | .failure e s l => ({ success := false, error := some e, httpStatus := s }, l)
      | .ok tx l _nb => ({ success := true, httpStatus := 200, txStatus := some tx.status }, l)

/-- A stored PaymentIntent row (the fields `processDeposit` reads). -/
structure PaymentIntentRec where
  id : String
  stripePaymentId : String
  walletId : String
  userId : String
  amount : ℚ
  currency : String
  status : String
  transactionId : Option String
deriving Repr, DecidableEq

/-- Result of `processDeposit`. -/
structure DepositResult where
  success : Bool
  error : Option String := none
  transactionId : Option String := none
deriving Repr, DecidableEq

/-- Function `processDeposit` from `src/lib/payments.ts`: look up the PaymentIntent
linked to the Stripe payment id; an already-`succeeded` intent returns the
prior transaction id with no mutation (idempotency); a Stripe status other
than `succeeded` marks the intent failed; otherwise credit the user wallet
with the full amount and the platform wallet with the 1% fee, record a
SUCCESS DEPOSIT transaction and mark the intent succeeded, atomically.
(`stripeStatus` is the payment collaborator's answer; the transaction-log
rows are elided — balances and the intent row are what the properties
observe.) -/
def processDeposit (stripeStatus : String) (pi? : Option PaymentIntentRec)
    (ledger : Ledger) (platformWalletId : String) (newTxId : String) :
    DepositResult × Ledger × Option PaymentIntentRec :=
  match pi? with
  | none =>
    ({ success := false, error := some "PaymentIntent not found in database" }, ledger, none)
  | some pi =>
    if pi.status == "succeeded" then
      ({ success := true, transactionId := pi.transactionId }, ledger, some pi)
    else if stripeStatus != "succeeded" then
      ({ success := false, error := some "Payment not succeeded in Stripe" }, ledger,
        some { pi with status := "failed" })
    else
      let platformFeeNum := calculatePlatformFee pi.amount
      let ledger1 := credit ledger pi.walletId pi.amount
      let ledger2 := credit ledger1 platformWalletId platformFeeNum
      ({ success := true, transactionId := some newTxId }, ledger2,
        some { pi with status := "succeeded", transactionId := some newTxId })

/-- A stored Payout row (the fields the payout callbacks read). -/
structure PayoutRec where
  id : String
  stripePayoutId : String
  walletId : String
  amount : ℚ
  status : String
  transactionId : Option String
deriving Repr, DecidableEq

/-- Result of a payout callback. -/
structure CallbackResult where
  success : Bool
  error : Option String := none
deriving Repr, DecidableEq

/-- Function `processPayoutSuccess` from `src/lib/payments.ts`: an already-`paid`
payout short-circuits with success; otherwise the payout is marked paid and
its transaction SUCCESS — no balance is touched on either path. -/
def processPayoutSuccess (payout? : Option PayoutRec) (ledger : Ledger) :
    CallbackResult × Ledger × Option PayoutRec :=
  match payout? with
  | none => ({ success := false, error := some "Payout not found" }, ledger, none)
  | some payout =>
    if payout.status == "paid" then
      ({ success := true }, ledger, some payout)
    else
      ({ success := true }, ledger, some { payout with status := "paid" })

/-- Function `processPayoutFailed` from `src/lib/payments.ts`: an already-`failed`
payout short-circuits with success and no mutation; otherwise the wallet is
refunded amount+fee, the platform wallet debited by the fee (when positive),
and the payout marked failed.  `linkedPlatformFee?` is the linked
transaction's platformFee column (`none` when the transaction is absent or the
column null). -/
def processPayoutFailed (payout? : Option PayoutRec) (linkedPlatformFee? : Option ℚ)
    (ledger : Ledger) (platformWalletId : String) :
    CallbackResult × Ledger × Option PayoutRec :=
  match payout? with
  | none => ({ success := false, error := some "Payout not found" }, ledger, none)
  | some payout =>
    if payout.status == "failed" then
      ({ success := true }, ledger, some payout)
    else
      let platformFee := linkedPlatformFee?.getD 0
      let totalRefund := payout.amount + platformFee
      let ledger1 := credit ledger payout.walletId totalRefund
      let ledger2 :=
        if platformFee > 0 then credit ledger1 platformWalletId (-platformFee) else ledger1
      ({ success := true }, ledger2, some { payout with status := "failed" })

/-- Payload of an incoming inter-wallet transfer request. -/
structure InterWalletTransferRequest where
  transactionRef : String
  sourceSystemUrl : String
  sourceSystemName : String
  sourceWalletId : String
  destinationWalletId : String
  amount : ℚ
  currency : String
  description : Option String := none
deriving Repr, DecidableEq

/-- Result of `validateIncomingTransfer`. -/
structure ValidationOutcome where
  valid : Bool
  error : Option String := none
deriving Repr, DecidableEq

/-- Function `validateIncomingTransfer` from `src/lib/interwallet.ts`: verify the
signature, check the destination wallet exists and is active, and reject a
transaction reference that was already processed (idempotency by the unique
`interWalletRef`).  `sigValid` abstracts the HMAC comparison and `usedRefs`
the set of stored references. -/
def validateIncomingTransfer (sigValid : Bool) (ledger : Ledger) (usedRefs : List String)
    (payload : InterWalletTransferRequest) : ValidationOutcome :=
  if !sigValid then { valid := false, error := some "Invalid signature" }
  else
    match ledger.find? (fun w => w.id == payload.destinationWalletId) with
    | none => { valid := false, error := some "Destination wallet not found" }
    | some wallet =>
      if !wallet.isActive then
        { valid := false, error := some "Destination wallet is inactive" }
      else if usedRefs.contains payload.transactionRef then
        { valid := false, error := some "Transaction already processed" }
      else { valid := true }

/-- Function `processIncomingTransfer` from `src/lib/interwallet.ts`: atomically
record a SUCCESS INTER_WALLET transaction carrying the reference and credit
the destination wallet with the gross amount. -/
def processIncomingTransfer (ledger : Ledger) (usedRefs : List String)
    (payload : InterWalletTransferRequest) (newTxId : String) :
    (Bool × Option String) × Ledger × List String :=
  match ledger.find? (fun w => w.id == payload.destinationWalletId) with
  | none => ((false, some "Wallet not found"), ledger, usedRefs)
  | some wallet =>
    ((true, some newTxId), credit ledger wallet.id payload.amount,
      usedRefs ++ [payload.transactionRef])

/-- JSON response of `POST /api/inter-wallet/transfer`. -/
structure InterRouteResponse where
  success : Bool
  error : Option String := none
  ackStatus : Option String := none
  httpStatus : Nat
deriving Repr, DecidableEq

/-- Route `POST /api/inter-wallet/transfer`: validate the incoming transfer, and
on failure answer 400 with the validation error and no mutation; otherwise
process it and answer with a signed ACCEPTED acknowledgment. -/
def interWalletTransferRoute (sigValid : Bool) (ledger : Ledger) (usedRefs : List String)
    (payload : InterWalletTransferRequest) (newTxId : String) :
    InterRouteResponse × Ledger × List String :=
  let validation := validateIncomingTransfer sigValid ledger usedRefs payload
  if !validation.valid then
    ({ success := false, error := validation.error, httpStatus := 400 }, ledger, usedRefs)
  else
    match processIncomingTransfer ledger usedRefs payload newTxId with
    | ((true, _), l, refs) =>
      ({ success := true, ackStatus := some "ACCEPTED", httpStatus := 200 }, l, refs)
    | ((false, e), l, refs) =>
      ({ success := false, error := e, httpStatus := 400 }, l, refs)

/-- Byte sequences (Node Buffers). -/
abbrev Bytes := List Nat

/-- Node's `crypto.timingSafeEqual`: throws a RangeError when the two
buffers differ in byte length (embedded as `Except.error`), otherwise
compares the contents in constant time. -/
def timingSafeEqual (a b : Bytes) : Except String Bool :=
  if a.length ≠ b.length then
    Except.error "Input buffers must have the same byte length"
  else Except.ok (a == b)

/-- Function `generateSignature` from `src/lib/interwallet.ts`: hex-encoded
HMAC-SHA256 over the serialized payload; the HMAC primitive is an external
collaborator supplied as an oracle on the payload bytes (a SHA-256 hex
digest has 64 characters). -/
def generateSignature (hmacHex : Bytes → Bytes) (payloadBytes : Bytes) : Bytes :=
  hmacHex payloadBytes

/-- Function `verifySignature` from `src/lib/interwallet.ts`: recompute the HMAC over
the presented payload and compare with `crypto.timingSafeEqual`; the
supplied signature is the first argument of the comparison. -/
def verifySignature (hmacHex : Bytes → Bytes) (payloadBytes signature : Bytes) :
    Except String Bool :=
  timingSafeEqual signature (generateSignature hmacHex payloadBytes)

/-- Outcome of the signature-check prefix of `POST /api/inter-wallet/validate`. -/
inductive ValidateRoutePrefix where
  | missingSignature
  | internalError
  | invalidSignature
  | proceed
deriving Repr, DecidableEq

/-- The signature-check prefix of `POST /api/inter-wallet/validate`: a
missing X-Signature header is a 400; a throw from `verifySignature` is
caught by the route's try/catch and answered 500 "Internal server error"; a
clean non-match is a 401 "Invalid signature"; a match proceeds. -/
def validateRouteSignatureCheck (hmacHex : Bytes → Bytes)
    (signature? : Option Bytes) (payloadBytes : Bytes) : ValidateRoutePrefix :=
  match signature? with
  | none => .missingSignature
  | some signature =>
    match verifySignature hmacHex payloadBytes signature with
    | .error _ => .internalError
    | .ok false => .invalidSignature
    | .ok true => .proceed

/-! Concrete fixtures used by the witness and counterexample theorems. -/

/-- Fraud result with score 0, decision ACCEPTED. -/
def fraudAccepted : FraudCheckResult :=
  { score := 0, decision := .ACCEPTED, reasons := [], appliedRules := [] }

/-- Fraud result with score 50, decision REVIEW (the spec's scenario:
amount rule 30 plus velocity rule 20). -/
def fraudReview50 : FraudCheckResult :=
  { score := 50, decision := .REVIEW
    reasons := ["Montant élevé: 6000€", "10 transactions en 60 minutes (limite: 10)"]
    appliedRules := ["Montant élevé", "Vélocité haute"] }

/-- Identity currency-conversion oracle. -/
def convertId : Convert := fun a _ _ => some a

/-- Conversion oracle whose USD→EUR rate is 0.9 (identity otherwise). -/
def convertUsd : Convert := fun a src dst =>
  if src = "USD" ∧ dst = "EUR" then some (a * (9/10)) else some a

/-- Conversion oracle whose USD→EUR rate is 1.1 (identity otherwise);
used for a destination-currency USD amount debited from a EUR wallet. -/
def convertUsd11 : Convert := fun a src dst =>
  if src = "USD" ∧ dst = "EUR" then some (a * (11/10)) else some a

/-- Email lookup resolving nothing. -/
def emailLookupNone : String → Option Wallet := fun _ => none

/-- Alice's EUR wallet. -/
def walletA : Wallet :=
  { id := "w1", userId := "u1", currency := "EUR", balance := 1000, isActive := true }

/-- Bob's EUR wallet. -/
def walletB : Wallet :=
  { id := "w2", userId := "u2", currency := "EUR", balance := 1000, isActive := true }

/-- The platform wallet (EUR). -/
def platformW : Wallet :=
  { id := "plat", userId := "platform", currency := "EUR", balance := 0, isActive := true }

/-- Three-wallet EUR store. -/
def ledgerEUR : Ledger := [walletA, walletB, platformW]

/-- A 100 transfer request from wallet w1 to wallet w2. -/
def dataAB : TransferData :=
  { sourceWalletId := "w1", destinationWalletId := some "w2", amount := 100 }

/-- Alice's USD wallet. -/
def walletAusd : Wallet :=
  { id := "w1", userId := "u1", currency := "USD", balance := 1000, isActive := true }

/-- Bob's USD wallet. -/
def walletBusd : Wallet :=
  { id := "w2", userId := "u2", currency := "USD", balance := 500, isActive := true }

/-- Same-currency USD pair plus the EUR platform wallet. -/
def ledgerUSD : Ledger := [walletAusd, walletBusd, platformW]

/-- EUR source, USD destination, EUR platform wallet. -/
def ledgerMixed : Ledger := [walletA, walletBusd, platformW]

/-- Result of the same-currency USD→USD transfer of 100 under the 0.9
USD→EUR rate (the platform fee is converted to EUR before being credited). -/
def usdRunResult : TransferResult :=
  handleLocalTransfer walletAusd dataAB fraudAccepted ledgerUSD convertUsd emailLookupNone "plat"

/-- The store after the USD→USD run. -/
def usdRunLedger : Ledger :=
  match usdRunResult with
  | .ok _ l _ => l
  | .failure _ _ l => l

/-- The recorded status of the USD→USD run. -/
def usdRunStatus : Option TxStatus :=
  match usdRunResult with
  | .ok tx _ _ => some tx.status
  | .failure _ _ _ => none

/-- Result of the cross-currency EUR-source→USD-destination transfer of
100 USD under the 1.1 USD→EUR rate. -/
def mixedRunResult : TransferResult :=
  handleLocalTransfer walletA dataAB fraudAccepted ledgerMixed convertUsd11 emailLookupNone "plat"

/-- The store after the cross-currency run. -/
def mixedRunLedger : Ledger :=
  match mixedRunResult with
  | .ok _ l _ => l
  | .failure _ _ l => l

/-- The recorded status of the cross-currency run. -/
def mixedRunStatus : Option TxStatus :=
  match mixedRunResult with
  | .ok tx _ _ => some tx.status
  | .failure _ _ _ => none

/-- A wallet holding only 50. -/
def walletPoor : Wallet :=
  { id := "w1", userId := "u1", currency := "EUR", balance := 50, isActive := true }

/-- Store with the poor wallet and the platform wallet. -/
def ledgerPoor : Ledger := [walletPoor, platformW]

/-- An inter-wallet transfer request of 100 from wallet w1. -/
def dataInter : TransferData :=
  { sourceWalletId := "w1", destinationWalletId := none, amount := 100
    isInterWallet := true, externalSystemUrl := some "http://ext.example"
    externalWalletId := some "ext-1" }

/-- A successful remote-protocol acknowledgment. -/
def remoteOk : RemoteTransferResult :=
  { success := true, transactionRef := some "ExtSys-abc-1234" }

/-- A failed remote-protocol call. -/
def remoteFail : RemoteTransferResult :=
  { success := false, error := some "Network error" }

/-- A neutral fraud environment: no history, 30-day-old account. -/
def envNeutral : FraudEnv :=
  { txCountInWindow := fun _ => 0, dailySumPrior := 0, accountAgeDays := some 30
    interWalletSuccessCount := 0, successCountToSystem := fun _ => 0 }

/-- The seeded "Montant très élevé" rule: AMOUNT_LIMIT over 10000,
action BLOCK, priority 100. -/
def blockRule10k : FraudRule :=
  { name := "Montant très élevé", ruleType := "AMOUNT_LIMIT"
    condition := { maxAmount := some 10000 }, score := 100, action := "BLOCK", priority := 100 }

/-- The seeded "Montant élevé" rule: AMOUNT_LIMIT over 5000, action FLAG,
priority 90. -/
def flagRule5k : FraudRule :=
  { name := "Montant élevé", ruleType := "AMOUNT_LIMIT"
    condition := { maxAmount := some 5000 }, score := 30, action := "FLAG", priority := 90 }

/-- A local transfer request of 20000 from w1 to w2. -/
def dataBig : TransferData :=
  { sourceWalletId := "w1", destinationWalletId := some "w2", amount := 20000 }

/-- A self-transfer request: wallet w1 to wallet w1. -/
def dataSelf : TransferData :=
  { sourceWalletId := "w1", destinationWalletId := some "w1", amount := 100 }

/-- A PaymentIntent already processed (status succeeded). -/
def piSucceeded : PaymentIntentRec :=
  { id := "pi1", stripePaymentId := "py_1", walletId := "w1", userId := "u1", amount := 100
    currency := "EUR", status := "succeeded", transactionId := some "tx-1" }

/-- A payout already paid. -/
def payoutPaid : PayoutRec :=
  { id := "po1", stripePayoutId := "spo1", walletId := "w1", amount := 100
    status := "paid", transactionId := some "tx-2" }

/-- A payout already failed. -/
def payoutAlreadyFailed : PayoutRec :=
  { id := "po2", stripePayoutId := "spo2", walletId := "w1", amount := 100
    status := "failed", transactionId := some "tx-3" }

/-- An incoming transfer payload carrying a known reference. -/
def incomingPayload : InterWalletTransferRequest :=
  { transactionRef := "ExtSys-abc-1234", sourceSystemUrl := "http://ext.example"
    sourceSystemName := "ExtSys", sourceWalletId := "ext-1", destinationWalletId := "w2"
    amount := 100, currency := "EUR" }

/-- The incoming-transfer route run replaying an already-stored reference. -/
def replayRun : InterRouteResponse × Ledger × List String :=
  interWalletTransferRoute true ledgerEUR ["ExtSys-abc-1234"] incomingPayload "tx-new"

/-- The route run of the inter-wallet transfer from the 50-balance wallet
(no stored rules, neutral history, remote acknowledges). -/
def interPoorRun : RouteResponse × Ledger :=
  postTransactionRoute [] envNeutral "u1" dataInter ledgerPoor convertId emailLookupNone
    "plat" remoteOk

theorem credit_head_id (w : Wallet) (wid : String) (a : ℚ) :
    (if w.id == wid then { w with balance := w.balance + a } else w).id = w.id := by
  split <;> rfl

theorem find?_credit (l : Ledger) (wid wid' : String) (a : ℚ) :
    List.find? (fun w => w.id == wid') (credit l wid a) =
      Option.map (fun w => if w.id == wid then { w with balance := w.balance + a } else w)
        (List.find? (fun w => w.id == wid') l) := by
  induction l with
  | nil => rfl
  | cons w tl ih =>
    unfold credit at ih ⊢
    simp only [List.map_cons, List.find?_cons, credit_head_id]
    by_cases hw' : (w.id == wid') = true
    · simp only [hw']
      rfl
    · rw [Bool.not_eq_true] at hw'
      simp only [hw']
      exact ih

theorem walletPresent_credit (l : Ledger) (wid wid' : String) (a : ℚ) :
    walletPresent (credit l wid a) wid' = walletPresent l wid' := by
  unfold walletPresent
  rw [find?_credit]
  cases List.find? (fun w => w.id == wid') l <;> rfl

theorem getBalance_credit (l : Ledger) (wid wid' : String) (a : ℚ) :
    getBalance (credit l wid a) wid' =
      getBalance l wid' + (if wid' = wid ∧ walletPresent l wid' = true then a else 0) := by
  unfold getBalance walletPresent
  rw [find?_credit]
  cases h : List.find? (fun w => w.id == wid') l with
  | none => simp
  | some w =>
    have hid : w.id = wid' := by
      have := List.find?_some h
      simpa using this
    by_cases hww : wid' = wid
    · simp only [Option.map_some', Option.isSome_some, hww, true_and, if_true]
      rw [if_pos (show (w.id == wid) = true by simp [hid, hww])]
    · simp only [Option.map_some', Option.isSome_some, hww, false_and, if_false]
      rw [if_neg (show ¬(w.id == wid) = true by simp [hid, hww])]
      exact (add_zero _).symm

theorem getBalance_credit_same (l : Ledger) (wid : String) (a : ℚ)
    (h : walletPresent l wid = true) :
    getBalance (credit l wid a) wid = getBalance l wid + a := by
  simp [getBalance_credit, h]

theorem getBalance_credit_ne (l : Ledger) (wid wid' : String) (a : ℚ) (h : wid' ≠ wid) :
    getBalance (credit l wid a) wid' = getBalance l wid' := by
  simp [getBalance_credit, h]

theorem mem_ite_singleton {α : Type} (c : Prop) [Decidable c] (x y : α) :
    x ∈ (if c then [y] else []) ↔ c ∧ x = y := by
  split <;> simp_all

theorem highAmount_mem_builtin_iff (ctx : TransactionContext) (env : FraudEnv) :
    "HIGH_AMOUNT" ∈ (applyBuiltInRules ctx env).appliedRules ↔ ctx.amount > 5000 := by
  unfold applyBuiltInRules
  simp only [List.mem_append]
  split_ifs <;> simp_all

theorem veryHighAmount_mem_builtin_iff (ctx : TransactionContext) (env : FraudEnv) :
    "VERY_HIGH_AMOUNT" ∈ (applyBuiltInRules ctx env).appliedRules ↔ ctx.amount > 10000 := by
  unfold applyBuiltInRules
  simp only [List.mem_append]
  split_ifs <;> simp_all

/-- C6: `calculatePlatformFee` equals the amount times the 1% rate rounded
half-up to 2 decimal places; `applyPlatformFee` returns
`{netAmount = amount - fee, fee}`; and for every non-negative amount the
fee and the net amount add back to the amount exactly. -/
theorem C6_platform_fee_contract (a : ℚ) :
    calculatePlatformFee a = specRoundHalfUp2 (a * PLATFORM_FEE_RATE) ∧
    applyPlatformFee a =
      { netAmount := a - calculatePlatformFee a, fee := calculatePlatformFee a } ∧
    (0 ≤ a → (applyPlatformFee a).fee + (applyPlatformFee a).netAmount = a) := by
  refine ⟨rfl, rfl, fun _ => ?_⟩
  simp only [applyPlatformFee]
  ring

/-- Witness for C6 at the spec's scenario inputs: `applyPlatformFee 100 =
{fee := 1, netAmount := 99}` and `applyPlatformFee 1 = {fee := 0.01,
netAmount := 0.99}`. -/
theorem C6_platform_fee_contract_witness :
    applyPlatformFee 100 = { netAmount := 99, fee := 1 } ∧
    applyPlatformFee 1 = { netAmount := 99/100, fee := 1/100 } ∧
    (0 ≤ (100 : ℚ)) ∧
    (applyPlatformFee 100).fee + (applyPlatformFee 100).netAmount = 100 := by
  refine ⟨?_, ?_, by norm_num, (C6_platform_fee_contract 100).2.2 (by norm_num)⟩
  · have h : calculatePlatformFee 100 = 1 := by
      norm_num [calculatePlatformFee, jsRound, PLATFORM_FEE_RATE]
    simp [applyPlatformFee, h]
    norm_num
  · have h : calculatePlatformFee 1 = 1/100 := by
      norm_num [calculatePlatformFee, jsRound, PLATFORM_FEE_RATE]
    simp [applyPlatformFee, h]
    norm_num

/-- C9: the HIGH_AMOUNT (30) and VERY_HIGH_AMOUNT (50) rules stack: every
amount strictly above 10000 triggers both for a combined score of 80, in
`calculateHighAmountScore` and in the built-in rule set of
`applyBuiltInRules`; an amount of exactly 10000 triggers only HIGH_AMOUNT
for a score of 30. -/
theorem C9_high_amount_rules_stack :
    (∀ a : ℚ, a > 10000 →
      (calculateHighAmountScore a).score = 80 ∧
      "HIGH_AMOUNT" ∈ (calculateHighAmountScore a).rules ∧
      "VERY_HIGH_AMOUNT" ∈ (calculateHighAmountScore a).rules ∧
      (∀ ctx env, ctx.amount = a →
        "HIGH_AMOUNT" ∈ (applyBuiltInRules ctx env).appliedRules ∧
        "VERY_HIGH_AMOUNT" ∈ (applyBuiltInRules ctx env).appliedRules)) ∧
    ((calculateHighAmountScore 10000).score = 30 ∧
      (calculateHighAmountScore 10000).rules = ["HIGH_AMOUNT"] ∧
      (∀ ctx env, ctx.amount = 10000 →
        "HIGH_AMOUNT" ∈ (applyBuiltInRules ctx env).appliedRules ∧
        "VERY_HIGH_AMOUNT" ∉ (applyBuiltInRules ctx env).appliedRules)) := by
  constructor
  · intro a ha
    have h5 : a > 5000 := lt_trans (by norm_num) ha
    refine ⟨?_, ?_, ?_, ?_⟩
    · simp [calculateHighAmountScore, ha, h5]
      norm_num
    · simp [calculateHighAmountScore, ha, h5]
    · simp [calculateHighAmountScore, ha, h5]
    · intro ctx env hamt
      exact ⟨(highAmount_mem_builtin_iff ctx env).2 (hamt ▸ h5),
        (veryHighAmount_mem_builtin_iff ctx env).2 (hamt ▸ ha)⟩
  · refine ⟨?_, ?_, ?_⟩
    · simp [calculateHighAmountScore]
      norm_num
    · simp [calculateHighAmountScore]
      norm_num
    · intro ctx env hamt
      refine ⟨(highAmount_mem_builtin_iff ctx env).2 (by rw [hamt]; norm_num), ?_⟩
      intro hmem
      have := (veryHighAmount_mem_builtin_iff ctx env).1 hmem
      rw [hamt] at this
      exact absurd this (by norm_num)

theorem checkFraudGo_inl (ctx : TransactionContext) (env : FraudEnv) :
    ∀ (rules : List FraudRule) (s : ℚ) (rs ar : List String) (res : FraudCheckResult),
      checkFraudGo ctx env rules s rs ar = Sum.inl res →
      res.decision = .BLOCKED ∧ res.score ≤ 100 := by
  intro rules
  induction rules with
  | nil =>
    intro s rs ar res h
    simp [checkFraudGo] at h
  | cons q qs ih =>
    intro s rs ar res h
    simp only [checkFraudGo] at h
    split at h
    · split at h
      · cases h
        exact ⟨rfl, min_le_right _ _⟩
      · exact ih _ _ _ _ h
    · exact ih _ _ _ _ h

theorem checkFraudGo_block_early (ctx : TransactionContext) (env : FraudEnv) (r : FraudRule)
    (htrig : (applyRule r ctx env).triggered = true) (hact : r.action = "BLOCK") :
    ∀ (pre post : List FraudRule) (s : ℚ) (rs ar : List String),
      checkFraudGo ctx env (pre ++ r :: post) s rs ar =
        checkFraudGo ctx env (pre ++ [r]) s rs ar := by
  intro pre
  induction pre with
  | nil =>
    intro post s rs ar
    have hb : (r.action == "BLOCK") = true := by simp [hact]
    simp only [List.nil_append, checkFraudGo, htrig, hb, if_true]
  | cons q qs ih =>
    intro post s rs ar
    simp only [List.cons_append, checkFraudGo]
    split
    · split
      · rfl
      · exact ih post _ _ _
    · exact ih post _ _ _

theorem checkFraudGo_block_inl (ctx : TransactionContext) (env : FraudEnv) (r : FraudRule)
    (htrig : (applyRule r ctx env).triggered = true) (hact : r.action = "BLOCK") :
    ∀ (pre : List FraudRule) (s : ℚ) (rs ar : List String),
      ∃ res, checkFraudGo ctx env (pre ++ [r]) s rs ar = Sum.inl res := by
  intro pre
  induction pre with
  | nil =>
    intro s rs ar
    have hb : (r.action == "BLOCK") = true := by simp [hact]
    refine ⟨{ score := min (s + r.score) 100, decision := .BLOCKED
              reasons := rs ++ [(applyRule r ctx env).reason]
              appliedRules := ar ++ [r.name] }, ?_⟩
    simp only [List.nil_append, checkFraudGo, htrig, hb, if_true]
  | cons q qs ih =>
    intro s rs ar
    simp only [List.cons_append, checkFraudGo]
    split
    · split
      · exact ⟨_, rfl⟩
      · exact ih _ _ _
    · exact ih _ _ _

/-- C8: during `checkFraud`'s priority-descending evaluation, a triggered
rule with action BLOCK returns immediately: the decision is BLOCKED, the
score is capped at 100, and the result is independent of every later
(lower-priority) rule; and for a BLOCKED fraud decision the transactions
route mutates no wallet balance. -/
theorem C8_block_rule_short_circuit
    (pre post : List FraudRule) (r : FraudRule) (ctx : TransactionContext) (env : FraudEnv)
    (htrig : (applyRule r ctx env).triggered = true) (hact : r.action = "BLOCK") :
    (checkFraud (pre ++ r :: post) ctx env).decision = .BLOCKED ∧
    (checkFraud (pre ++ r :: post) ctx env).score ≤ 100 ∧
    checkFraud (pre ++ r :: post) ctx env = checkFraud (pre ++ [r]) ctx env ∧
    (∀ (rules : List FraudRule) (env' : FraudEnv) (user : String) (data : TransferData)
        (ledger : Ledger) (convert : Convert) (emailLookup : String → Option Wallet)
        (platformWalletId : String) (remote : RemoteTransferResult),
      (checkFraud rules (routeFraudCtx user data) env').decision = .BLOCKED →
      (postTransactionRoute rules env' user data ledger convert emailLookup
        platformWalletId remote).2 = ledger) := by
  obtain ⟨res, hres⟩ := checkFraudGo_block_inl ctx env r htrig hact pre 0 [] []
  have heq := checkFraudGo_block_early ctx env r htrig hact pre post 0 [] []
  have hprops := checkFraudGo_inl ctx env (pre ++ [r]) 0 [] [] res hres
  have h1 : checkFraud (pre ++ r :: post) ctx env = res := by
    unfold checkFraud
    rw [heq, hres]
  have h2 : checkFraud (pre ++ [r]) ctx env = res := by
    unfold checkFraud
    rw [hres]
  refine ⟨by rw [h1]; exact hprops.1, by rw [h1]; exact hprops.2, h1.trans h2.symm, ?_⟩
  intro rules env' user data ledger convert emailLookup platformWalletId remote hblocked
  unfold postTransactionRoute
  cases hfind : ledger.find?
      (fun w => w.id == data.sourceWalletId && w.userId == user && w.isActive) with
  | none => rfl
  | some w =>
    simp [hblocked]

theorem calculatePlatformFee_nonneg (a : ℚ) (h : 0 ≤ a) : 0 ≤ calculatePlatformFee a := by
  unfold calculatePlatformFee jsRound PLATFORM_FEE_RATE
  have hfl : (0 : ℤ) ≤ Int.floor (a * (1/100) * 100 + 1/2) := by
    rw [Int.le_floor]
    push_cast
    nlinarith
  positivity

/-- Evaluation of `localTransferSettle` on a same-currency (EUR source)
transfer with sufficient balance and a non-REVIEW fraud decision: the
SUCCESS mutation debits the source by amount+fee, credits the destination
with the amount, and credits the platform wallet with the fee (waived for
same-user transfers). -/
theorem localTransferSettle_success_eval
    (sourceWallet dest : Wallet) (aDest aDebit r : ℚ) (fraud : FraudCheckResult)
    (ledger : Ledger) (convert : Convert) (platformWalletId : String)
    (hEUR : sourceWallet.currency = "EUR")
    (hdec : fraud.decision ≠ .REVIEW)
    (hamt : 0 ≤ aDebit)
    (hbal : aDebit + calculatePlatformFee aDebit ≤ sourceWallet.balance)
    (hsd : sourceWallet.id ≠ dest.id)
    (hsp : sourceWallet.id ≠ platformWalletId)
    (hdp : dest.id ≠ platformWalletId)
    (hsrcP : walletPresent ledger sourceWallet.id = true)
    (hdstP : walletPresent ledger dest.id = true)
    (hplatP : walletPresent ledger platformWalletId = true) :
    ∃ tx l nb,
      localTransferSettle sourceWallet dest aDest aDebit r fraud ledger convert platformWalletId
        = .ok tx l nb ∧
      tx.status = .SUCCESS ∧
      tx.platformFee =
        (if (sourceWallet.userId == dest.userId) = true then 0
         else calculatePlatformFee aDebit) ∧
      getBalance l sourceWallet.id
        = getBalance ledger sourceWallet.id - aDebit - tx.platformFee ∧
      getBalance l dest.id = getBalance ledger dest.id + aDest ∧
      getBalance l platformWalletId = getBalance ledger platformWalletId + tx.platformFee := by
  have hfee0 : 0 ≤ calculatePlatformFee aDebit := calculatePlatformFee_nonneg _ hamt
  unfold localTransferSettle
  by_cases su : (sourceWallet.userId == dest.userId) = true
  · have hnb : ¬(sourceWallet.balance < aDebit + 0) := by
      rw [add_zero]
      exact not_lt.2 (le_trans (le_add_of_nonneg_right hfee0) hbal)
    simp only [su, if_true, not_true, false_and, if_false, hnb, hdec]
    refine ⟨_, _, _, rfl, rfl, by simp [su], ?_, ?_, ?_⟩
    · rw [getBalance_credit_ne _ _ _ _ hsd, getBalance_credit_same _ _ _ hsrcP]
      simp only [TxRecord.platformFee]
      ring
    · rw [getBalance_credit_same, getBalance_credit_ne _ _ _ _ (Ne.symm hsd)]
      rw [walletPresent_credit]
      exact hdstP
    · rw [getBalance_credit_ne _ _ _ _ (Ne.symm hdp),
        getBalance_credit_ne _ _ _ _ (Ne.symm hsp)]
      simp only [TxRecord.platformFee]
      ring
  · have su' : (sourceWallet.userId == dest.userId) = false := by
      simpa using su
    simp only [su', Bool.false_eq_true, if_false, not_false_iff, true_and]
    have heurne : (sourceWallet.currency != "EUR") = false := by
      simp [hEUR]
    have hnb : ¬(sourceWallet.balance < aDebit + calculatePlatformFee aDebit) :=
      not_lt.2 hbal
    by_cases hf : 0 < calculatePlatformFee aDebit
    · simp only [hf, if_true, heurne, Bool.false_and, Bool.false_eq_true, if_false, hnb,
        hdec, Option.isSome_some, and_true, true_and]
      refine ⟨_, _, _, rfl, rfl, by simp [su'], ?_, ?_, ?_⟩
      · rw [getBalance_credit_ne _ _ _ _ hsp, getBalance_credit_ne _ _ _ _ hsd,
          getBalance_credit_same _ _ _ hsrcP]
        simp only [TxRecord.platformFee]
        ring
      · rw [getBalance_credit_ne _ _ _ _ hdp, getBalance_credit_same,
          getBalance_credit_ne _ _ _ _ (Ne.symm hsd)]
        rw [walletPresent_credit]
        exact hdstP
      · rw [getBalance_credit_same, getBalance_credit_ne _ _ _ _ (Ne.symm hdp),
          getBalance_credit_ne _ _ _ _ (Ne.symm hsp)]
        rw [walletPresent_credit, walletPresent_credit]
        exact hplatP
    · have hf0 : calculatePlatformFee aDebit = 0 := le_antisymm (not_lt.1 hf) hfee0
      have hnb0 : ¬(sourceWallet.balance < aDebit + 0) := by
        rw [add_zero]
        exact not_lt.2 (le_trans (le_add_of_nonneg_right hfee0) hbal)
      simp only [hf0, lt_irrefl, if_false, hnb0, hdec, gt_iff_lt, and_false, false_and,
        if_true]
      refine ⟨_, _, _, rfl, rfl, rfl, ?_, ?_, ?_⟩
      · rw [getBalance_credit_ne _ _ _ _ hsd, getBalance_credit_same _ _ _ hsrcP]
        simp only [TxRecord.platformFee, hf0]
        ring
      · rw [getBalance_credit_same, getBalance_credit_ne _ _ _ _ (Ne.symm hsd)]
        rw [walletPresent_credit]
        exact hdstP
      · rw [getBalance_credit_ne _ _ _ _ (Ne.symm hdp),
          getBalance_credit_ne _ _ _ _ (Ne.symm hsp)]
        simp only [TxRecord.platformFee]
        ring

/-- Evaluation of `localTransferSettle` when the fraud decision is REVIEW
(EUR source, sufficient balance): the source is debited amount+fee, the
destination and the platform wallet are untouched, and the transaction is
recorded with status REVIEW and no executed timestamp. -/
theorem localTransferSettle_review_eval
    (sourceWallet dest : Wallet) (aDest aDebit r : ℚ) (fraud : FraudCheckResult)
    (ledger : Ledger) (convert : Convert) (platformWalletId : String)
    (hEUR : sourceWallet.currency = "EUR")
    (hdec : fraud.decision = .REVIEW)
    (hamt : 0 ≤ aDebit)
    (hbal : aDebit + calculatePlatformFee aDebit ≤ sourceWallet.balance)
    (hsd : sourceWallet.id ≠ dest.id)
    (hsp : sourceWallet.id ≠ platformWalletId)
    (hsrcP : walletPresent ledger sourceWallet.id = true) :
    ∃ tx l nb,
      localTransferSettle sourceWallet dest aDest aDebit r fraud ledger convert
        platformWalletId = .ok tx l nb ∧
      tx.status = .REVIEW ∧
      tx.hasExecutedAt = false ∧
      tx.platformFee =
        (if (sourceWallet.userId == dest.userId) = true then 0
         else calculatePlatformFee aDebit) ∧
      getBalance l sourceWallet.id
        = getBalance ledger sourceWallet.id - aDebit - tx.platformFee ∧
      getBalance l dest.id = getBalance ledger dest.id ∧
      getBalance l platformWalletId = getBalance ledger platformWalletId := by
  have hfee0 : 0 ≤ calculatePlatformFee aDebit := calculatePlatformFee_nonneg _ hamt
  have hrs : (TxStatus.REVIEW = TxStatus.SUCCESS) = False := by
    simp
  unfold localTransferSettle
  by_cases su : (sourceWallet.userId == dest.userId) = true
  · have hnb : ¬(sourceWallet.balance < aDebit + 0) := by
      rw [add_zero]
      exact not_lt.2 (le_trans (le_add_of_nonneg_right hfee0) hbal)
    simp only [su, if_true, not_true, false_and, if_false, hnb, hdec, hrs]
    refine ⟨_, _, _, rfl, rfl, rfl, by simp [su], ?_, ?_, ?_⟩
    · rw [getBalance_credit_same _ _ _ hsrcP]
      simp only [TxRecord.platformFee]
      ring
    · rw [getBalance_credit_ne _ _ _ _ (Ne.symm hsd)]
    · rw [getBalance_credit_ne _ _ _ _ (Ne.symm hsp)]
  · have su' : (sourceWallet.userId == dest.userId) = false := by
      simpa using su
    simp only [su', Bool.false_eq_true, if_false, not_false_iff, true_and]
    have heurne : (sourceWallet.currency != "EUR") = false := by
      simp [hEUR]
    have hnb : ¬(sourceWallet.balance < aDebit + calculatePlatformFee aDebit) :=
      not_lt.2 hbal
    by_cases hf : 0 < calculatePlatformFee aDebit
    · simp only [hf, if_true, heurne, Bool.false_and, Bool.false_eq_true, if_false, hnb,
        hdec, hrs]
      refine ⟨_, _, _, rfl, rfl, rfl, by simp [su'], ?_, ?_, ?_⟩
      · rw [getBalance_credit_same _ _ _ hsrcP]
        simp only [TxRecord.platformFee]
        ring
      · rw [getBalance_credit_ne _ _ _ _ (Ne.symm hsd)]
      · rw [getBalance_credit_ne _ _ _ _ (Ne.symm hsp)]
    · have hf0 : calculatePlatformFee aDebit = 0 := le_antisymm (not_lt.1 hf) hfee0
      have hnb0 : ¬(sourceWallet.balance < aDebit + 0) := by
        rw [add_zero]
        exact not_lt.2 (le_trans (le_add_of_nonneg_right hfee0) hbal)
      simp only [hf0, lt_irrefl, if_false, hnb0, hdec, gt_iff_lt, and_false, false_and,
        if_true, hrs]
      refine ⟨_, _, _, rfl, rfl, rfl, rfl, ?_, ?_, ?_⟩
      · rw [getBalance_credit_same _ _ _ hsrcP]
        simp only [TxRecord.platformFee]
        ring
      · rw [getBalance_credit_ne _ _ _ _ (Ne.symm hsd)]
      · rw [getBalance_credit_ne _ _ _ _ (Ne.symm hsp)]

/-- Characterization of every committed REVIEW settlement: whenever
`localTransferSettle` returns `.ok` under a REVIEW fraud decision —
whatever the currencies, the conversion outcomes or the balance — the
transaction is recorded REVIEW with no executed timestamp and the mutated
store is exactly the single debit of amount+fee from the source wallet
(the fee waived for same-user transfers). -/
theorem localTransferSettle_review_ok
    (sourceWallet dest : Wallet) (aDest aDebit r : ℚ) (fraud : FraudCheckResult)
    (ledger : Ledger) (convert : Convert) (platformWalletId : String)
    (tx : TxRecord) (l : Ledger) (nb : ℚ)
    (hdec : fraud.decision = .REVIEW)
    (hok : localTransferSettle sourceWallet dest aDest aDebit r fraud ledger convert
      platformWalletId = .ok tx l nb) :
    tx.status = .REVIEW ∧
    tx.hasExecutedAt = false ∧
    l = credit ledger sourceWallet.id
      (-(aDebit + (if (sourceWallet.userId == dest.userId) = true then 0
                   else calculatePlatformFee aDebit))) := by
  have hrs : (TxStatus.REVIEW = TxStatus.SUCCESS) = False := by
    simp
  simp only [localTransferSettle, hdec, if_true, hrs, if_false] at hok
  split at hok
  · simp at hok
  · split at hok
    · split at hok
      · simp at hok
      · injection hok with h1 h2 h3
        subst h1
        refine ⟨rfl, rfl, ?_⟩
        rw [if_pos ‹(sourceWallet.userId == dest.userId) = true›]
        simp only [add_zero] at h2 ⊢
        exact h2.symm
    · split at hok
      · simp at hok
      · injection hok with h1 h2 h3
        subst h1
        refine ⟨rfl, rfl, ?_⟩
        rw [if_neg ‹¬(sourceWallet.userId == dest.userId) = true›]
        exact h2.symm

/-- C5: every local transfer committed under a REVIEW fraud decision debits
the source wallet by amount plus fee, leaves the destination wallet and the
platform wallet unchanged, and records the transaction with status REVIEW
and no executed timestamp. -/
theorem C5_review_debits_without_credit
    (sourceWallet dest : Wallet) (did : String) (data : TransferData)
    (fraud : FraudCheckResult) (ledger : Ledger) (convert : Convert)
    (emailLookup : String → Option Wallet) (platformWalletId : String)
    (tx : TxRecord) (l : Ledger) (nb : ℚ)
    (hdid : data.destinationWalletId = some did)
    (hfind : ledger.find? (fun w => w.id == did && w.isActive) = some dest)
    (hne : (dest.id == sourceWallet.id) = false)
    (hcur : dest.currency = sourceWallet.currency)
    (hdec : fraud.decision = .REVIEW)
    (hok : handleLocalTransfer sourceWallet data fraud ledger convert emailLookup
      platformWalletId = .ok tx l nb)
    (hsp : sourceWallet.id ≠ platformWalletId)
    (hsrcP : walletPresent ledger sourceWallet.id = true) :
    tx.status = .REVIEW ∧
    tx.hasExecutedAt = false ∧
    getBalance l sourceWallet.id
      = getBalance ledger sourceWallet.id - data.amount
        - (if (sourceWallet.userId == dest.userId) = true then 0
           else calculatePlatformFee data.amount) ∧
    getBalance l dest.id = getBalance ledger dest.id ∧
    getBalance l platformWalletId = getBalance ledger platformWalletId := by
  have hsd : sourceWallet.id ≠ dest.id := by
    intro h
    rw [h] at hne
    simp at hne
  unfold handleLocalTransfer at hok
  simp only [hdid, hfind, hne, hcur, Bool.false_eq_true, if_false, ne_eq,
    not_true_eq_false] at hok
  obtain ⟨hst, hex, hl⟩ := localTransferSettle_review_ok sourceWallet dest data.amount
    data.amount 1 fraud ledger convert platformWalletId tx l nb hdec hok
  refine ⟨hst, hex, ?_, ?_, ?_⟩
  · rw [hl, getBalance_credit_same _ _ _ hsrcP]
    ring
  · rw [hl, getBalance_credit_ne _ _ _ _ (Ne.symm hsd)]
  · rw [hl, getBalance_credit_ne _ _ _ _ (Ne.symm hsp)]

/-- Witness for C5 at the spec's scenario: a 100 EUR transfer with fraud
decision REVIEW (score exactly 50) debits the source to 899 while the
destination stays at 1000 and the platform wallet at 0, and the REVIEW
transaction has no executed timestamp. -/
theorem C5_review_debits_without_credit_witness :
    ∃ tx l nb,
      handleLocalTransfer walletA dataAB fraudReview50 ledgerEUR convertId emailLookupNone
        "plat" = .ok tx l nb ∧
      tx.status = .REVIEW ∧
      tx.hasExecutedAt = false ∧
      fraudReview50.score = 50 ∧
      getBalance l "w1" = 899 ∧
      getBalance l "w2" = 1000 ∧
      getBalance l "plat" = 0 := by
  have hfee : calculatePlatformFee (100 : ℚ) = 1 := by
    norm_num [calculatePlatformFee, jsRound, PLATFORM_FEE_RATE]
  obtain ⟨tx, l, nb, hok0, _hst, _hex, _hpf, _hsrc, _hdst, _hplat⟩ :=
    localTransferSettle_review_eval walletA walletB dataAB.amount dataAB.amount 1
      fraudReview50 ledgerEUR convertId "plat" rfl rfl (by norm_num [dataAB])
      (by show (100 : ℚ) + calculatePlatformFee 100 ≤ 1000; rw [hfee]; norm_num)
      (by decide) (by decide) rfl
  have hok : handleLocalTransfer walletA dataAB fraudReview50 ledgerEUR convertId
      emailLookupNone "plat" = .ok tx l nb := by
    unfold handleLocalTransfer
    simp only [show dataAB.destinationWalletId = some "w2" from rfl,
      show List.find? (fun w => w.id == "w2" && w.isActive) ledgerEUR = some walletB
        from rfl,
      show (walletB.id == walletA.id) = false from rfl, Bool.false_eq_true, if_false]
    rw [if_neg (by decide)]
    exact hok0
  obtain ⟨hst, hex, hsrc, hdst, hplat⟩ :=
    C5_review_debits_without_credit walletA walletB "w2" dataAB fraudReview50 ledgerEUR
      convertId emailLookupNone "plat" tx l nb rfl rfl rfl rfl rfl hok (by decide) rfl
  refine ⟨tx, l, nb, hok, hst, hex, by norm_num [fraudReview50], ?_, ?_, ?_⟩
  · rw [show "w1" = walletA.id from rfl, hsrc, if_neg (by decide),
      show getBalance ledgerEUR walletA.id = 1000 from rfl,
      show dataAB.amount = (100 : ℚ) from rfl, hfee]
    norm_num
  · rw [show "w2" = walletB.id from rfl, hdst]
    rfl
  · rw [hplat]
    rfl

/-- C1 (amended): a successful local transfer between same-currency wallets
whose source currency is EUR debits the source by amount+fee, credits the
destination with the amount and the platform wallet with the fee (zero when
both wallets belong to the same user), so the three-wallet balance sum is
unchanged. -/
theorem C1_local_transfer_conservation
    (sourceWallet dest : Wallet) (did : String) (data : TransferData)
    (fraud : FraudCheckResult) (ledger : Ledger) (convert : Convert)
    (emailLookup : String → Option Wallet) (platformWalletId : String)
    (hdid : data.destinationWalletId = some did)
    (hfind : ledger.find? (fun w => w.id == did && w.isActive) = some dest)
    (hne : (dest.id == sourceWallet.id) = false)
    (hcur : dest.currency = sourceWallet.currency)
    (hEUR : sourceWallet.currency = "EUR")
    (hdec : fraud.decision ≠ .REVIEW)
    (hamt : 0 ≤ data.amount)
    (hbal : data.amount + calculatePlatformFee data.amount ≤ sourceWallet.balance)
    (hsp : sourceWallet.id ≠ platformWalletId)
    (hdp : dest.id ≠ platformWalletId)
    (hsrcP : walletPresent ledger sourceWallet.id = true)
    (hdstP : walletPresent ledger dest.id = true)
    (hplatP : walletPresent ledger platformWalletId = true) :
    ∃ tx l nb,
      handleLocalTransfer sourceWallet data fraud ledger convert emailLookup platformWalletId
        = .ok tx l nb ∧
      tx.status = .SUCCESS ∧
      tx.platformFee =
        (if (sourceWallet.userId == dest.userId) = true then 0
         else calculatePlatformFee data.amount) ∧
      getBalance l sourceWallet.id
        = getBalance ledger sourceWallet.id - data.amount - tx.platformFee ∧
      getBalance l dest.id = getBalance ledger dest.id + data.amount ∧
      getBalance l platformWalletId = getBalance ledger platformWalletId + tx.platformFee ∧
      getBalance l sourceWallet.id + getBalance l dest.id + getBalance l platformWalletId
        = getBalance ledger sourceWallet.id + getBalance ledger dest.id
          + getBalance ledger platformWalletId := by
  have hsd : sourceWallet.id ≠ dest.id := by
    intro h
    rw [h] at hne
    simp at hne
  have hfee0 : 0 ≤ calculatePlatformFee data.amount := calculatePlatformFee_nonneg _ hamt
  unfold handleLocalTransfer
  simp only [hdid, hfind, hne, hcur, Bool.false_eq_true, if_false, ne_eq,
    not_true_eq_false]
  obtain ⟨tx, l, nb, hok, hst, hfee, hsrc, hdst, hplat⟩ :=
    localTransferSettle_success_eval sourceWallet dest data.amount data.amount 1 fraud
      ledger convert platformWalletId hEUR hdec hamt hbal hsd hsp hdp hsrcP hdstP hplatP
  exact ⟨tx, l, nb, hok, hst, hfee, hsrc, hdst, hplat, by rw [hsrc, hdst, hplat]; ring⟩

/-- Witness for C1 at the spec's scenario: 100 EUR from a 1000 EUR wallet to
another user's wallet leaves the source at 899, the destination at 1100 and
the platform wallet at 1, conserving the three-way sum. -/
theorem C1_local_transfer_conservation_witness :
    ∃ tx l nb,
      handleLocalTransfer walletA dataAB fraudAccepted ledgerEUR convertId emailLookupNone
        "plat" = .ok tx l nb ∧
      tx.status = .SUCCESS ∧
      getBalance l "w1" = 899 ∧
      getBalance l "w2" = 1100 ∧
      getBalance l "plat" = 1 ∧
      getBalance l "w1" + getBalance l "w2" + getBalance l "plat"
        = getBalance ledgerEUR "w1" + getBalance ledgerEUR "w2"
          + getBalance ledgerEUR "plat" := by
  have hfee : calculatePlatformFee (100 : ℚ) = 1 := by
    norm_num [calculatePlatformFee, jsRound, PLATFORM_FEE_RATE]
  obtain ⟨tx, l, nb, hok, hst, hfee', hsrc, hdst, hplat, hsum⟩ :=
    C1_local_transfer_conservation walletA walletB "w2" dataAB fraudAccepted ledgerEUR
      convertId emailLookupNone "plat" rfl rfl rfl rfl rfl (by decide)
      (by norm_num [dataAB])
      (by show (100 : ℚ) + calculatePlatformFee 100 ≤ 1000; rw [hfee]; norm_num)
      (by decide) (by decide) rfl rfl rfl
  have hpf : tx.platformFee = 1 := by
    rw [hfee', if_neg (by decide)]
    exact hfee
  have hg1 : getBalance ledgerEUR "w1" = 1000 := rfl
  have hg2 : getBalance ledgerEUR "w2" = 1000 := rfl
  have hg3 : getBalance ledgerEUR "plat" = 0 := rfl
  refine ⟨tx, l, nb, hok, hst, ?_, ?_, ?_, ?_⟩
  · rw [show "w1" = walletA.id from rfl] at hg1 ⊢
    rw [hsrc, hpf, hg1]
    norm_num [dataAB]
  · rw [show "w2" = walletB.id from rfl] at hg2 ⊢
    rw [hdst, hg2]
    norm_num [dataAB]
  · rw [hplat, hpf, hg3]
    norm_num
  · rw [show "w1" = walletA.id from rfl, show "w2" = walletB.id from rfl]
    exact hsum

/-- Evaluation of `localTransferSettle` on a same-currency transfer whose
source currency is NOT EUR (different users, positive fee): the platform
fee is converted to EUR through the conversion oracle before being
credited, so the platform wallet receives the converted amount `feeE`
while the source is debited the unconverted fee. -/
theorem localTransferSettle_nonEUR_eval
    (sourceWallet dest pw : Wallet) (aDest aDebit r feeE : ℚ) (fraud : FraudCheckResult)
    (ledger : Ledger) (convert : Convert) (platformWalletId : String)
    (su' : (sourceWallet.userId == dest.userId) = false)
    (hf : 0 < calculatePlatformFee aDebit)
    (hsne : (sourceWallet.currency != "EUR") = true)
    (hpfind : List.find? (fun w => w.id == platformWalletId) ledger = some pw)
    (hpcur : (pw.currency == "EUR") = true)
    (hconv : convert (calculatePlatformFee aDebit) sourceWallet.currency "EUR" = some feeE)
    (hfeE : 0 < feeE)
    (hdec : fraud.decision ≠ .REVIEW)
    (hbal : aDebit + calculatePlatformFee aDebit ≤ sourceWallet.balance)
    (hsd : sourceWallet.id ≠ dest.id)
    (hsp : sourceWallet.id ≠ platformWalletId)
    (hdp : dest.id ≠ platformWalletId)
    (hsrcP : walletPresent ledger sourceWallet.id = true)
    (hdstP : walletPresent ledger dest.id = true)
    (hplatP : walletPresent ledger platformWalletId = true) :
    ∃ tx l nb,
      localTransferSettle sourceWallet dest aDest aDebit r fraud ledger convert
        platformWalletId = .ok tx l nb ∧
      tx.status = .SUCCESS ∧
      tx.platformFee = feeE ∧
      getBalance l sourceWallet.id
        = getBalance ledger sourceWallet.id - aDebit - calculatePlatformFee aDebit ∧
      getBalance l dest.id = getBalance ledger dest.id + aDest ∧
      getBalance l platformWalletId = getBalance ledger platformWalletId + feeE := by
  have hnb : ¬(sourceWallet.balance < aDebit + calculatePlatformFee aDebit) := not_lt.2 hbal
  unfold localTransferSettle
  simp only [su', Bool.false_eq_true, if_false, hf, if_true, not_false_iff, true_and,
    hpfind, hsne, hpcur, Bool.true_and, Bool.and_self, hconv, hnb, hdec,
    Option.isSome_some, and_true, hfeE]
  refine ⟨_, _, _, rfl, rfl, rfl, ?_, ?_, ?_⟩
  · rw [getBalance_credit_ne _ _ _ _ hsp, getBalance_credit_ne _ _ _ _ hsd,
      getBalance_credit_same _ _ _ hsrcP]
    ring
  · rw [getBalance_credit_ne _ _ _ _ hdp, getBalance_credit_same,
      getBalance_credit_ne _ _ _ _ (Ne.symm hsd)]
    rw [walletPresent_credit]
    exact hdstP
  · rw [getBalance_credit_same, getBalance_credit_ne _ _ _ _ (Ne.symm hdp),
      getBalance_credit_ne _ _ _ _ (Ne.symm hsp)]
    rw [walletPresent_credit, walletPresent_credit]
    exact hplatP

/-- C1 counterexample: on the code, a successful 100 USD transfer between
two same-currency (USD) wallets of different users under a 0.9 USD→EUR rate
credits the platform wallet with the converted fee 0.9 instead of the
debited fee 1, so the sum of the three balances changes (1500 → 1499.9),
contradicting the claim's unrestricted conservation statement. -/
theorem C1_counterexample_usd_fee_conversion :
    usdRunStatus = some .SUCCESS ∧
    walletAusd.currency = walletBusd.currency ∧
    getBalance ledgerUSD "w1" + getBalance ledgerUSD "w2" + getBalance ledgerUSD "plat"
      = 1500 ∧
    getBalance usdRunLedger "w1" = 899 ∧
    getBalance usdRunLedger "w2" = 600 ∧
    getBalance usdRunLedger "plat" = 9/10 ∧
    getBalance usdRunLedger "w1" + getBalance usdRunLedger "w2"
        + getBalance usdRunLedger "plat"
      ≠ getBalance ledgerUSD "w1" + getBalance ledgerUSD "w2"
        + getBalance ledgerUSD "plat" := by
  have hfee : calculatePlatformFee dataAB.amount = 1 := by
    norm_num [dataAB, calculatePlatformFee, jsRound, PLATFORM_FEE_RATE]
  have hconv : convertUsd (calculatePlatformFee dataAB.amount) walletAusd.currency "EUR"
      = some (9/10) := by
    rw [hfee]
    norm_num [convertUsd, walletAusd]
  obtain ⟨tx, l, nb, hok, hst, hpf, hsrc, hdst, hplat⟩ :=
    localTransferSettle_nonEUR_eval walletAusd walletBusd platformW dataAB.amount
      dataAB.amount 1 (9/10) fraudAccepted ledgerUSD convertUsd "plat" rfl
      (by rw [hfee]; norm_num) rfl rfl rfl hconv (by norm_num) (by decide)
      (by rw [hfee]; norm_num [dataAB, walletAusd]) (by decide) (by decide) (by decide)
      rfl rfl rfl
  have hrun : usdRunResult = .ok tx l nb := by
    unfold usdRunResult handleLocalTransfer
    simp only [show dataAB.destinationWalletId = some "w2" from rfl,
      show List.find? (fun w => w.id == "w2" && w.isActive) ledgerUSD = some walletBusd
        from rfl,
      show (walletBusd.id == walletAusd.id) = false from rfl, Bool.false_eq_true, if_false]
    rw [if_neg (by decide)]
    exact hok
  have hL : usdRunLedger = l := by
    unfold usdRunLedger
    rw [hrun]
  have hg1 : getBalance ledgerUSD "w1" = 1000 := rfl
  have hg2 : getBalance ledgerUSD "w2" = 500 := rfl
  have hg3 : getBalance ledgerUSD "plat" = 0 := rfl
  have hb1 : getBalance usdRunLedger "w1" = 899 := by
    rw [hL, show "w1" = walletAusd.id from rfl, hsrc, hfee,
      show getBalance ledgerUSD walletAusd.id = 1000 from rfl]
    norm_num [dataAB]
  have hb2 : getBalance usdRunLedger "w2" = 600 := by
    rw [hL, show "w2" = walletBusd.id from rfl, hdst,
      show getBalance ledgerUSD walletBusd.id = 500 from rfl]
    norm_num [dataAB]
  have hb3 : getBalance usdRunLedger "plat" = 9/10 := by
    rw [hL, hplat, hg3]
    norm_num
  refine ⟨?_, rfl, by rw [hg1, hg2, hg3]; norm_num, hb1, hb2, hb3, ?_⟩
  · unfold usdRunStatus
    rw [hrun]
    show some tx.status = some TxStatus.SUCCESS
    rw [hst]
  · rw [hb1, hb2, hb3, hg1, hg2, hg3]
    norm_num

/-- C7 (amended): a resolved destination wallet equal to the source is
rejected with a failure result and no mutation; a mere currency mismatch
between the two wallets is NOT rejected — the amount is converted — and a
rejection with no mutation occurs only when the supplied
`destinationCurrency` differs from the destination wallet's currency or the
conversion oracle fails. -/
theorem C7_self_transfer_rejected_currency_converted
    (sourceWallet dest : Wallet) (did : String) (data : TransferData)
    (fraud : FraudCheckResult) (ledger : Ledger) (convert : Convert)
    (emailLookup : String → Option Wallet) (platformWalletId : String)
    (hdid : data.destinationWalletId = some did)
    (hfind : ledger.find? (fun w => w.id == did && w.isActive) = some dest) :
    (dest.id = sourceWallet.id →
      handleLocalTransfer sourceWallet data fraud ledger convert emailLookup
          platformWalletId
        = .failure "Impossible de transférer vers le même wallet" 400 ledger) ∧
    (dest.id ≠ sourceWallet.id → dest.currency ≠ sourceWallet.currency →
      jsOrStr data.destinationCurrency dest.currency ≠ dest.currency →
      handleLocalTransfer sourceWallet data fraud ledger convert emailLookup
          platformWalletId
        = .failure "La devise du montant ne correspond pas au wallet de destination" 400
            ledger) ∧
    (dest.id ≠ sourceWallet.id → dest.currency ≠ sourceWallet.currency →
      jsOrStr data.destinationCurrency dest.currency = dest.currency →
      convert data.amount dest.currency sourceWallet.currency = none →
      handleLocalTransfer sourceWallet data fraud ledger convert emailLookup
          platformWalletId
        = .failure "Erreur de conversion de devise" 400 ledger) := by
  refine ⟨?_, ?_, ?_⟩
  · intro hself
    unfold handleLocalTransfer
    simp only [hdid, hfind]
    rw [if_pos (by simp [hself])]
  · intro hne hcc hexp
    unfold handleLocalTransfer
    simp only [hdid, hfind]
    rw [if_neg (by simp [hne]), if_pos hcc, if_pos hexp]
  · intro hne hcc hexp hconv
    unfold handleLocalTransfer
    simp only [hdid, hfind]
    rw [if_neg (by simp [hne]), if_pos hcc, if_neg (by simp [hexp]), hconv]

/-- Witness for C7: the self-transfer w1→w1 is rejected with the dedicated
error and the untouched store. -/
theorem C7_self_transfer_rejected_witness :
    handleLocalTransfer walletA dataSelf fraudAccepted ledgerEUR convertId emailLookupNone
      "plat" = .failure "Impossible de transférer vers le même wallet" 400 ledgerEUR := by
  exact (C7_self_transfer_rejected_currency_converted walletA walletA "w1" dataSelf
    fraudAccepted ledgerEUR convertId emailLookupNone "plat" rfl rfl).1 rfl

/-- C7 counterexample: on the code, a transfer between wallets of different
currencies (EUR source, USD destination) is NOT rejected: under a 1.1
USD→EUR rate the 100 USD request succeeds, debits the EUR source by
110 + 1.1 fee and credits the USD destination by 100, contradicting the
claim that a currency mismatch is rejected with no mutation. -/
theorem C7_counterexample_currency_mismatch_not_rejected :
    walletA.currency ≠ walletBusd.currency ∧
    mixedRunStatus = some .SUCCESS ∧
    getBalance ledgerMixed "w1" = 1000 ∧
    getBalance mixedRunLedger "w1" = 8889/10 ∧
    getBalance mixedRunLedger "w2" = 600 ∧
    getBalance mixedRunLedger "w1" ≠ getBalance ledgerMixed "w1" := by
  have hfee : calculatePlatformFee (110 : ℚ) = 11/10 := by
    norm_num [calculatePlatformFee, jsRound, PLATFORM_FEE_RATE]
  obtain ⟨tx, l, nb, hok, hst, hpf, hsrc, hdst, hplat⟩ :=
    localTransferSettle_success_eval walletA walletBusd dataAB.amount 110
      (110 / dataAB.amount) fraudAccepted ledgerMixed convertUsd11 "plat" rfl (by decide)
      (by norm_num) (by rw [hfee]; norm_num [walletA]) (by decide) (by decide) (by decide)
      rfl rfl rfl
  have hconv : convertUsd11 dataAB.amount walletBusd.currency walletA.currency
      = some 110 := by
    norm_num [convertUsd11, dataAB, walletBusd, walletA]
  have hrun : mixedRunResult = .ok tx l nb := by
    unfold mixedRunResult handleLocalTransfer
    simp only [show dataAB.destinationWalletId = some "w2" from rfl,
      show List.find? (fun w => w.id == "w2" && w.isActive) ledgerMixed = some walletBusd
        from rfl]
    rw [if_neg (by decide), if_pos (by decide), if_neg (by decide), hconv]
    exact hok
  have hL : mixedRunLedger = l := by
    unfold mixedRunLedger
    rw [hrun]
  have hpf1 : tx.platformFee = 11/10 := by
    rw [hpf, if_neg (by decide)]
    exact hfee
  refine ⟨by decide, ?_, rfl, ?_, ?_, ?_⟩
  · unfold mixedRunStatus
    rw [hrun]
    show some tx.status = some TxStatus.SUCCESS
    rw [hst]
  · rw [hL, show "w1" = walletA.id from rfl, hsrc, hpf1,
      show getBalance ledgerMixed walletA.id = 1000 from rfl]
    norm_num
  · rw [hL, show "w2" = walletBusd.id from rfl, hdst,
      show getBalance ledgerMixed walletBusd.id = 500 from rfl]
    norm_num [dataAB]
  · rw [hL, show "w1" = walletA.id from rfl, hsrc, hpf1,
      show getBalance ledgerMixed walletA.id = 1000 from rfl]
    norm_num

/-- C4: when the remote protocol call of an outgoing inter-system transfer
fails, `handleInterWalletTransfer` reverses the initial debit — crediting
the source wallet by amount+fee and debiting the platform wallet by the
fee — and marks the transaction FAILED, leaving every wallet balance (in
particular the source) equal to its pre-transfer value. -/
theorem C4_remote_failure_reversal
    (sourceWallet : Wallet) (data : TransferData) (ledger : Ledger)
    (platformWalletId : String) (remote : RemoteTransferResult)
    (hfail : remote.success = false) :
    ∃ e l, handleInterWalletTransfer sourceWallet data ledger platformWalletId remote
        = .failure e .FAILED l ∧
      ∀ wid, getBalance l wid = getBalance ledger wid := by
  unfold handleInterWalletTransfer
  simp only [hfail, Bool.false_eq_true, if_false]
  refine ⟨_, _, rfl, fun wid => ?_⟩
  simp only [getBalance_credit, walletPresent_credit]
  split_ifs <;> ring

/-- Witness for C4: a failed remote call for a 100 transfer from the
1000-balance wallet leaves all three balances at their pre-transfer
values with a FAILED transaction. -/
theorem C4_remote_failure_reversal_witness :
    remoteFail.success = false ∧
    ∃ e l, handleInterWalletTransfer walletA dataInter ledgerEUR "plat" remoteFail
        = .failure e .FAILED l ∧
      getBalance l "w1" = 1000 ∧ getBalance l "w2" = 1000 ∧ getBalance l "plat" = 0 := by
  obtain ⟨e, l, hok, hbal⟩ :=
    C4_remote_failure_reversal walletA dataInter ledgerEUR "plat" remoteFail rfl
  refine ⟨rfl, e, l, hok, ?_, ?_, ?_⟩ <;> rw [hbal] <;> rfl

/-- The fraud decision of the inter-wallet run from the 50-balance wallet is
ACCEPTED (score 15 from the NEW_EXTERNAL_SYSTEM built-in rule). -/
theorem interPoor_fraud_accepted :
    (checkFraud [] (routeFraudCtx "u1" dataInter) envNeutral).decision
      = Decision.ACCEPTED := by
  have hscore : (applyBuiltInRules (routeFraudCtx "u1" dataInter) envNeutral).score
      = 15 := by
    norm_num [applyBuiltInRules, routeFraudCtx, dataInter, envNeutral]
    decide
  unfold checkFraud
  simp only [checkFraudGo, List.length_nil, hscore]
  norm_num

/-- C2 (violation exhibited): the code applies no balance check on the
outgoing inter-system path — the route commits an inter-wallet transfer of
100 from a wallet holding only 50, succeeding with status PROCESSING and a
source balance of −51. -/
theorem C2_interwallet_commits_negative_balance :
    interPoorRun.1.success = true ∧
    interPoorRun.1.txStatus = some .PROCESSING ∧
    getBalance ledgerPoor "w1" = 50 ∧
    getBalance interPoorRun.2 "w1" = -51 ∧
    getBalance interPoorRun.2 "w1" < 0 ∧
    getBalance interPoorRun.2 "plat" = 1 := by
  have hfee : calculatePlatformFee dataInter.amount = 1 := by
    norm_num [dataInter, calculatePlatformFee, jsRound, PLATFORM_FEE_RATE]
  have hinter : handleInterWalletTransfer walletPoor dataInter ledgerPoor "plat" remoteOk
      = InterTransferResult.ok .PROCESSING remoteOk.transactionRef
          (credit (credit ledgerPoor walletPoor.id
            (-(dataInter.amount + calculatePlatformFee dataInter.amount))) "plat"
            (calculatePlatformFee dataInter.amount)) := by
    unfold handleInterWalletTransfer
    rw [if_pos (show remoteOk.success = true from rfl)]
  have hroute : interPoorRun
      = ({ success := true, httpStatus := 200, txStatus := some .PROCESSING },
         credit (credit ledgerPoor walletPoor.id
           (-(dataInter.amount + calculatePlatformFee dataInter.amount))) "plat"
           (calculatePlatformFee dataInter.amount)) := by
    unfold interPoorRun postTransactionRoute
    simp only [show List.find?
        (fun w => w.id == dataInter.sourceWalletId && w.userId == "u1" && w.isActive)
        ledgerPoor = some walletPoor from rfl]
    rw [if_neg (by rw [interPoor_fraud_accepted]; exact fun h => by cases h)]
    rw [if_pos (show (dataInter.isInterWallet && jsTruthy dataInter.externalSystemUrl &&
      jsTruthy dataInter.externalWalletId) = true from rfl)]
    rw [hinter]
  refine ⟨by rw [hroute], by rw [hroute], rfl, ?_, ?_, ?_⟩
  · rw [hroute]
    show getBalance _ "w1" = -51
    rw [show ("w1" : String) = walletPoor.id from rfl,
      getBalance_credit_ne _ _ _ _ (by decide),
      getBalance_credit_same ledgerPoor walletPoor.id _ rfl, hfee,
      show getBalance ledgerPoor walletPoor.id = 50 from rfl]
    norm_num [dataInter]
  · rw [hroute]
    show getBalance _ "w1" < 0
    rw [show ("w1" : String) = walletPoor.id from rfl,
      getBalance_credit_ne _ _ _ _ (by decide),
      getBalance_credit_same ledgerPoor walletPoor.id _ rfl, hfee,
      show getBalance ledgerPoor walletPoor.id = 50 from rfl]
    norm_num [dataInter]
  · rw [hroute]
    show getBalance _ "plat" = 1
    rw [getBalance_credit_same _ _ _ (by rw [walletPresent_credit]; rfl),
      getBalance_credit_ne _ _ _ _ (by decide), hfee,
      show getBalance ledgerPoor "plat" = 0 from rfl]
    norm_num

/-- Witness for C8: the seeded BLOCK rule (amount over 10000) triggered by a
20000 transfer blocks the transaction, and the route run at that input
leaves the store untouched. -/
theorem C8_block_rule_short_circuit_witness :
    (applyRule blockRule10k (routeFraudCtx "u1" dataBig) envNeutral).triggered = true ∧
    blockRule10k.action = "BLOCK" ∧
    (checkFraud [blockRule10k, flagRule5k] (routeFraudCtx "u1" dataBig) envNeutral).decision
      = .BLOCKED ∧
    checkFraud [blockRule10k, flagRule5k] (routeFraudCtx "u1" dataBig) envNeutral
      = checkFraud [blockRule10k] (routeFraudCtx "u1" dataBig) envNeutral ∧
    (postTransactionRoute [blockRule10k, flagRule5k] envNeutral "u1" dataBig ledgerEUR
      convertId emailLookupNone "plat" remoteOk).2 = ledgerEUR := by
  have htrig : (applyRule blockRule10k (routeFraudCtx "u1" dataBig) envNeutral).triggered
      = true := by
    have hmax : jsOrNum blockRule10k.condition.maxAmount 10000 = 10000 := by
      norm_num [blockRule10k, jsOrNum]
    have hgt : (routeFraudCtx "u1" dataBig).amount
        > jsOrNum blockRule10k.condition.maxAmount 10000 := by
      rw [hmax]
      norm_num [routeFraudCtx, dataBig]
    unfold applyRule
    rw [if_pos (by decide)]
    rw [if_pos hgt]
  have h := C8_block_rule_short_circuit [] [flagRule5k] blockRule10k
    (routeFraudCtx "u1" dataBig) envNeutral htrig rfl
  exact ⟨htrig, rfl, h.1, h.2.2.1, h.2.2.2 _ _ _ _ _ _ _ _ _ h.1⟩

/-- Witness for C9 at the spec's scenario input 15000, including a concrete
built-in-rule evaluation. -/
theorem C9_high_amount_rules_stack_witness :
    (15000 : ℚ) > 10000 ∧
    (calculateHighAmountScore 15000).score = 80 ∧
    "HIGH_AMOUNT" ∈ (calculateHighAmountScore 15000).rules ∧
    "VERY_HIGH_AMOUNT" ∈ (calculateHighAmountScore 15000).rules ∧
    "VERY_HIGH_AMOUNT" ∈ (applyBuiltInRules
      { userId := "u1", amount := 15000, type := "TRANSFER" }
      { txCountInWindow := fun _ => 0, dailySumPrior := 0, accountAgeDays := some 30
        interWalletSuccessCount := 0, successCountToSystem := fun _ => 0 }).appliedRules := by
  have h := C9_high_amount_rules_stack.1 15000 (by norm_num)
  exact ⟨by norm_num, h.1, h.2.1, h.2.2.1,
    (h.2.2.2 { userId := "u1", amount := 15000, type := "TRANSFER" }
      { txCountInWindow := fun _ => 0, dailySumPrior := 0, accountAgeDays := some 30
        interWalletSuccessCount := 0, successCountToSystem := fun _ => 0 } rfl).2⟩

/-- C3 (amended): replaying an already-processed payment confirmation or an
already-paid/already-failed payout callback is a success no-op returning the
prior result with no balance mutation; replaying an already-used
inter-system transfer reference also mutates no balance but is rejected
with a 400 "Transaction already processed" error instead of returning the
prior result. -/
theorem C3_replay_no_double_mutation :
    (∀ (stripeStatus : String) (pi : PaymentIntentRec) (ledger : Ledger)
        (platformWalletId newTxId : String), pi.status = "succeeded" →
      processDeposit stripeStatus (some pi) ledger platformWalletId newTxId
        = ({ success := true, transactionId := pi.transactionId }, ledger, some pi)) ∧
    (∀ (payout : PayoutRec) (ledger : Ledger), payout.status = "paid" →
      processPayoutSuccess (some payout) ledger
        = ({ success := true }, ledger, some payout)) ∧
    (∀ (payout : PayoutRec) (fee? : Option ℚ) (ledger : Ledger)
        (platformWalletId : String), payout.status = "failed" →
      processPayoutFailed (some payout) fee? ledger platformWalletId
        = ({ success := true }, ledger, some payout)) ∧
    (∀ (sigValid : Bool) (ledger : Ledger) (usedRefs : List String)
        (payload : InterWalletTransferRequest) (newTxId : String) (dest : Wallet),
      ledger.find? (fun w => w.id == payload.destinationWalletId) = some dest →
      dest.isActive = true → sigValid = true →
      usedRefs.contains payload.transactionRef = true →
      interWalletTransferRoute sigValid ledger usedRefs payload newTxId
        = ({ success := false, error := some "Transaction already processed"
             httpStatus := 400 }, ledger, usedRefs)) := by
  refine ⟨?_, ?_, ?_, ?_⟩
  · intro stripeStatus pi ledger platformWalletId newTxId hpi
    simp only [processDeposit]
    rw [if_pos (by simp [hpi])]
  · intro payout ledger hpaid
    simp only [processPayoutSuccess]
    rw [if_pos (by simp [hpaid])]
  · intro payout fee? ledger platformWalletId hfailed
    simp only [processPayoutFailed]
    rw [if_pos (by simp [hfailed])]
  · intro sigValid ledger usedRefs payload newTxId dest hfind hact hsig hused
    unfold interWalletTransferRoute validateIncomingTransfer
    simp only [hsig, Bool.not_true, Bool.false_eq_true, if_false, hfind, hact, hused,
      if_true, Bool.not_false]

/-- Witness for C3: the three replay no-ops and the reference-replay
rejection at concrete stored rows. -/
theorem C3_replay_no_double_mutation_witness :
    processDeposit "succeeded" (some piSucceeded) ledgerEUR "plat" "tx-9"
      = ({ success := true, transactionId := some "tx-1" }, ledgerEUR, some piSucceeded) ∧
    processPayoutSuccess (some payoutPaid) ledgerEUR
      = ({ success := true }, ledgerEUR, some payoutPaid) ∧
    processPayoutFailed (some payoutAlreadyFailed) (some 1) ledgerEUR "plat"
      = ({ success := true }, ledgerEUR, some payoutAlreadyFailed) ∧
    interWalletTransferRoute true ledgerEUR ["ExtSys-abc-1234"] incomingPayload "tx-new"
      = ({ success := false, error := some "Transaction already processed",
           httpStatus := 400 }, ledgerEUR, ["ExtSys-abc-1234"]) := by
  exact ⟨C3_replay_no_double_mutation.1 "succeeded" piSucceeded ledgerEUR "plat" "tx-9" rfl,
    C3_replay_no_double_mutation.2.1 payoutPaid ledgerEUR rfl,
    C3_replay_no_double_mutation.2.2.1 payoutAlreadyFailed (some 1) ledgerEUR "plat" rfl,
    C3_replay_no_double_mutation.2.2.2 true ledgerEUR ["ExtSys-abc-1234"] incomingPayload
      "tx-new" walletB rfl rfl rfl rfl⟩

/-- C3 counterexample: a replayed inter-system reference is answered with a
400 failure response ("Transaction already processed"), not with the prior
success acknowledgment, refuting the claim that the replay "returns the
prior result" for this event kind (the store is indeed untouched). -/
theorem C3_counterexample_interref_replay_is_error :
    replayRun
      = ({ success := false, error := some "Transaction already processed",
           httpStatus := 400 }, ledgerEUR, ["ExtSys-abc-1234"]) ∧
    replayRun.1.success = false ∧
    replayRun.1.httpStatus = 400 := by
  exact ⟨rfl, rfl, rfl⟩

/-- C10: a supplied signature whose byte length differs from the 64-character
recomputed HMAC-SHA256 hex digest makes `verifySignature` raise an explicit
error (Node's `timingSafeEqual` RangeError), never return a plain
non-match, and the validate route answers through its catch-all error path
(500 Internal server error), not the 401 invalid-signature path. -/
theorem C10_signature_length_mismatch_raises
    (hmacHex : Bytes → Bytes) (payloadBytes signature : Bytes)
    (hlen : (generateSignature hmacHex payloadBytes).length = 64)
    (hsig : signature.length ≠ 64) :
    verifySignature hmacHex payloadBytes signature
      = Except.error "Input buffers must have the same byte length" ∧
    (∀ b, verifySignature hmacHex payloadBytes signature ≠ Except.ok b) ∧
    validateRouteSignatureCheck hmacHex (some signature) payloadBytes
      = .internalError := by
  have hne : signature.length ≠ (generateSignature hmacHex payloadBytes).length := by
    rw [hlen]
    exact hsig
  have hv : verifySignature hmacHex payloadBytes signature
      = Except.error "Input buffers must have the same byte length" := by
    unfold verifySignature timingSafeEqual
    rw [if_pos hne]
  refine ⟨hv, ?_, ?_⟩
  · intro b h
    rw [hv] at h
    cases h
  · simp only [validateRouteSignatureCheck]
    rw [hv]

/-- Witness for C10 at a concrete 64-byte digest and an empty supplied
signature. -/
theorem C10_signature_length_mismatch_raises_witness :
    (generateSignature (fun _ => List.replicate 64 0) [0]).length = 64 ∧
    ([] : Bytes).length ≠ 64 ∧
    verifySignature (fun _ => List.replicate 64 0) [0] []
      = Except.error "Input buffers must have the same byte length" ∧
    validateRouteSignatureCheck (fun _ => List.replicate 64 0) (some []) [0]
      = .internalError := by
  have h := C10_signature_length_mismatch_raises (fun _ => List.replicate 64 0) [0] []
    (by decide) (by decide)
  exact ⟨by decide, by decide, h.1, h.2.2⟩

end WalletSpec
